import Mathlib

/-!
The CBLAS interface of zml (`src/include/cblas.h`).

The header is the whole program text under study: five enumerated tag types, one
type alias, and 140 function declarations grouped under the comments "Level 1",
"Level 2" and "Level 3".  Each declaration is embedded as data (return type, name,
parameter list), one Lean definition per source line, under the source's names.
-/

namespace CBlas

/-- Lines 11-14: `typedef enum CBLAS_ORDER`. -/
inductive CBLAS_ORDER
  | CblasRowMajor
  | CblasColMajor
  deriving DecidableEq, Repr, Fintype

/-- Lines 16-21: `typedef enum CBLAS_TRANSPOSE`. -/
inductive CBLAS_TRANSPOSE
  | CblasNoTrans
  | CblasTrans
  | CblasConjTrans
  | CblasConjNoTrans
  deriving DecidableEq, Repr, Fintype

/-- Lines 23-26: `typedef enum CBLAS_UPLO`. -/
inductive CBLAS_UPLO
  | CblasUpper
  | CblasLower
  deriving DecidableEq, Repr, Fintype

/-- Lines 28-31: `typedef enum CBLAS_DIAG`. -/
inductive CBLAS_DIAG
  | CblasNonUnit
  | CblasUnit
  deriving DecidableEq, Repr, Fintype

/-- Lines 33-36: `typedef enum CBLAS_SIDE`. -/
inductive CBLAS_SIDE
  | CblasLeft
  | CblasRight
  deriving DecidableEq, Repr, Fintype

/-- Line 38: `typedef CBLAS_ORDER CBLAS_LAYOUT;`. -/
abbrev CBLAS_LAYOUT : Type := CBLAS_ORDER

/-- The base types that occur in the declarations of the header. -/
inductive CType
  | int
  | unsignedInt
  | float
  | double
  | floatComplex
  | doubleComplex
  | void
  | order
  | transpose
  | uplo
  | diag
  | side
  deriving DecidableEq, Repr

/-- One parameter of a declaration: `[const] base [*]name`. -/
structure Param where
  isConst : Bool
  base : CType
  isPtr : Bool
  name : String
  deriving DecidableEq, Repr

/-- One function declaration: `ret name(params);`. -/
structure Decl where
  ret : CType
  name : String
  params : List Param
  deriving DecidableEq, Repr

/-- The parameter `const base name`. -/
def cval (base : CType) (name : String) : Param := ⟨true, base, false, name⟩

/-- The parameter `const base *name`. -/
def cptr (base : CType) (name : String) : Param := ⟨true, base, true, name⟩

/-- The parameter `base *name`. -/
def mptr (base : CType) (name : String) : Param := ⟨false, base, true, name⟩

namespace Sig

/-- Line 44: float cblas_sasum (const int n, const float *x, const int incx); -/
def cblas_sasum : Decl :=
  ⟨.float, "cblas_sasum", [cval .int "n", cptr .float "x", cval .int "incx"]⟩

/-- Line 45: double cblas_dasum (const int n, const double *x, const int incx); -/
def cblas_dasum : Decl :=
  ⟨.double, "cblas_dasum", [cval .int "n", cptr .double "x", cval .int "incx"]⟩

/-- Line 46: float cblas_scasum(const int n, const void *x, const int incx); -/
def cblas_scasum : Decl :=
  ⟨.float, "cblas_scasum", [cval .int "n", cptr .void "x", cval .int "incx"]⟩

/-- Line 47: double cblas_dzasum(const int n, const void *x, const int incx); -/
def cblas_dzasum : Decl :=
  ⟨.double, "cblas_dzasum", [cval .int "n", cptr .void "x", cval .int "incx"]⟩

/-- Line 49: void cblas_saxpy(const int n, const float alpha, const float *x, const int incx, float *y, const int incy); -/
def cblas_saxpy : Decl :=
  ⟨.void, "cblas_saxpy", [cval .int "n", cval .float "alpha", cptr .float "x", cval .int "incx", mptr .float "y", cval .int "incy"]⟩

/-- Line 50: void cblas_daxpy(const int n, const double alpha, const double *x, const int incx, double *y, const int incy); -/
def cblas_daxpy : Decl :=
  ⟨.void, "cblas_daxpy", [cval .int "n", cval .double "alpha", cptr .double "x", cval .int "incx", mptr .double "y", cval .int "incy"]⟩

/-- Line 51: void cblas_caxpy(const int n, const void *alpha, const void *x, const int incx, void *y, const int incy); -/
def cblas_caxpy : Decl :=
  ⟨.void, "cblas_caxpy", [cval .int "n", cptr .void "alpha", cptr .void "x", cval .int "incx", mptr .void "y", cval .int "incy"]⟩

/-- Line 52: void cblas_zaxpy(const int n, const void *alpha, const void *x, const int incx, void *y, const int incy); -/
def cblas_zaxpy : Decl :=
  ⟨.void, "cblas_zaxpy", [cval .int "n", cptr .void "alpha", cptr .void "x", cval .int "incx", mptr .void "y", cval .int "incy"]⟩

/-- Line 54: void cblas_scopy(const int n, const float *x, const int incx, float *y, const int incy); -/
def cblas_scopy : Decl :=
  ⟨.void, "cblas_scopy", [cval .int "n", cptr .float "x", cval .int "incx", mptr .float "y", cval .int "incy"]⟩

/-- Line 55: void cblas_dcopy(const int n, const double *x, const int incx, double *y, const int incy); -/
def cblas_dcopy : Decl :=
  ⟨.void, "cblas_dcopy", [cval .int "n", cptr .double "x", cval .int "incx", mptr .double "y", cval .int "incy"]⟩

/-- Line 56: void cblas_ccopy(const int n, const void *x, const int incx, void *y, const int incy); -/
def cblas_ccopy : Decl :=
  ⟨.void, "cblas_ccopy", [cval .int "n", cptr .void "x", cval .int "incx", mptr .void "y", cval .int "incy"]⟩

/-- Line 57: void cblas_zcopy(const int n, const void *x, const int incx, void *y, const int incy); -/
def cblas_zcopy : Decl :=
  ⟨.void, "cblas_zcopy", [cval .int "n", cptr .void "x", cval .int "incx", mptr .void "y", cval .int "incy"]⟩

/-- Line 59: float cblas_sdot(const int n, const float *x, const int incx, const float *y, const int incy); -/
def cblas_sdot : Decl :=
  ⟨.float, "cblas_sdot", [cval .int "n", cptr .float "x", cval .int "incx", cptr .float "y", cval .int "incy"]⟩

/-- Line 60: double cblas_ddot(const int n, const double *x, const int incx, const double *y, const int incy); -/
def cblas_ddot : Decl :=
  ⟨.double, "cblas_ddot", [cval .int "n", cptr .double "x", cval .int "incx", cptr .double "y", cval .int "incy"]⟩

/-- Line 62: float _Complex cblas_cdotc(const int n, const void *x, const int incx, const void *y, const int incy); -/
def cblas_cdotc : Decl :=
  ⟨.floatComplex, "cblas_cdotc", [cval .int "n", cptr .void "x", cval .int "incx", cptr .void "y", cval .int "incy"]⟩

/-- Line 63: double _Complex cblas_zdotc(const int n, const void *x, const int incx, const void *y, const int incy); -/
def cblas_zdotc : Decl :=
  ⟨.doubleComplex, "cblas_zdotc", [cval .int "n", cptr .void "x", cval .int "incx", cptr .void "y", cval .int "incy"]⟩

/-- Line 65: void cblas_cdotc_sub(const int n, const void *x, const int incx, const void *y, const int incy, void *ret); -/
def cblas_cdotc_sub : Decl :=
  ⟨.void, "cblas_cdotc_sub", [cval .int "n", cptr .void "x", cval .int "incx", cptr .void "y", cval .int "incy", mptr .void "ret"]⟩

/-- Line 66: void cblas_zdotc_sub(const int n, const void *x, const int incx, const void *y, const int incy, void *ret); -/
def cblas_zdotc_sub : Decl :=
  ⟨.void, "cblas_zdotc_sub", [cval .int "n", cptr .void "x", cval .int "incx", cptr .void "y", cval .int "incy", mptr .void "ret"]⟩

/-- Line 68: float _Complex cblas_cdotu(const int n, const void *x, const int incx, const void *y, const int incy); -/
def cblas_cdotu : Decl :=
  ⟨.floatComplex, "cblas_cdotu", [cval .int "n", cptr .void "x", cval .int "incx", cptr .void "y", cval .int "incy"]⟩

/-- Line 69: double _Complex cblas_zdotu(const int n, const void *x, const int incx, const void *y, const int incy); -/
def cblas_zdotu : Decl :=
  ⟨.doubleComplex, "cblas_zdotu", [cval .int "n", cptr .void "x", cval .int "incx", cptr .void "y", cval .int "incy"]⟩

/-- Line 71: void cblas_cdotu_sub(const int n, const void *x, const int incx, const void *y, const int incy, void *ret); -/
def cblas_cdotu_sub : Decl :=
  ⟨.void, "cblas_cdotu_sub", [cval .int "n", cptr .void "x", cval .int "incx", cptr .void "y", cval .int "incy", mptr .void "ret"]⟩

/-- Line 72: void cblas_zdotu_sub(const int n, const void *x, const int incx, const void *y, const int incy, void *ret); -/
def cblas_zdotu_sub : Decl :=
  ⟨.void, "cblas_zdotu_sub", [cval .int "n", cptr .void "x", cval .int "incx", cptr .void "y", cval .int "incy", mptr .void "ret"]⟩

/-- Line 74: float cblas_snrm2 (const int n, const float *x, const int incx); -/
def cblas_snrm2 : Decl :=
  ⟨.float, "cblas_snrm2", [cval .int "n", cptr .float "x", cval .int "incx"]⟩

/-- Line 75: double cblas_dnrm2 (const int n, const double *x, const int incx); -/
def cblas_dnrm2 : Decl :=
  ⟨.double, "cblas_dnrm2", [cval .int "n", cptr .double "x", cval .int "incx"]⟩

/-- Line 76: float cblas_scnrm2(const int n, const void *x, const int incx); -/
def cblas_scnrm2 : Decl :=
  ⟨.float, "cblas_scnrm2", [cval .int "n", cptr .void "x", cval .int "incx"]⟩

/-- Line 77: double cblas_dznrm2(const int n, const void *x, const int incx); -/
def cblas_dznrm2 : Decl :=
  ⟨.double, "cblas_dznrm2", [cval .int "n", cptr .void "x", cval .int "incx"]⟩

/-- Line 79: void cblas_srot (const int n, float *x, const int incx, float *y, const int incy, const float c, const float s); -/
def cblas_srot : Decl :=
  ⟨.void, "cblas_srot", [cval .int "n", mptr .float "x", cval .int "incx", mptr .float "y", cval .int "incy", cval .float "c", cval .float "s"]⟩

/-- Line 80: void cblas_drot (const int n, double *x, const int incx, double *y, const int incy, const double c, const double s); -/
def cblas_drot : Decl :=
  ⟨.void, "cblas_drot", [cval .int "n", mptr .double "x", cval .int "incx", mptr .double "y", cval .int "incy", cval .double "c", cval .double "s"]⟩

/-- Line 81: void cblas_csrot(const int n, void *x, const int incx, void *y, const int incy, const float c, const float s); -/
def cblas_csrot : Decl :=
  ⟨.void, "cblas_csrot", [cval .int "n", mptr .void "x", cval .int "incx", mptr .void "y", cval .int "incy", cval .float "c", cval .float "s"]⟩

/-- Line 82: void cblas_zdrot(const int n, void *x, const int incx, void *y, const int incy, const double c, const double s); -/
def cblas_zdrot : Decl :=
  ⟨.void, "cblas_zdrot", [cval .int "n", mptr .void "x", cval .int "incx", mptr .void "y", cval .int "incy", cval .double "c", cval .double "s"]⟩

/-- Line 84: void cblas_srotg(float *a, float *b, float *c, float *s); -/
def cblas_srotg : Decl :=
  ⟨.void, "cblas_srotg", [mptr .float "a", mptr .float "b", mptr .float "c", mptr .float "s"]⟩

/-- Line 85: void cblas_drotg(double *a, double *b, double *c, double *s); -/
def cblas_drotg : Decl :=
  ⟨.void, "cblas_drotg", [mptr .double "a", mptr .double "b", mptr .double "c", mptr .double "s"]⟩

/-- Line 86: void cblas_crotg(void *a, void *b, float *c, void *s); -/
def cblas_crotg : Decl :=
  ⟨.void, "cblas_crotg", [mptr .void "a", mptr .void "b", mptr .float "c", mptr .void "s"]⟩

/-- Line 87: void cblas_zrotg(void *a, void *b, double *c, void *s); -/
def cblas_zrotg : Decl :=
  ⟨.void, "cblas_zrotg", [mptr .void "a", mptr .void "b", mptr .double "c", mptr .void "s"]⟩

/-- Line 89: void cblas_srotm(const int n, float *x, const int incx, float *y, const int incy, const float *param); -/
def cblas_srotm : Decl :=
  ⟨.void, "cblas_srotm", [cval .int "n", mptr .float "x", cval .int "incx", mptr .float "y", cval .int "incy", cptr .float "param"]⟩

/-- Line 90: void cblas_drotm(const int n, double *x, const int incx, double *y, const int incy, const double *param); -/
def cblas_drotm : Decl :=
  ⟨.void, "cblas_drotm", [cval .int "n", mptr .double "x", cval .int "incx", mptr .double "y", cval .int "incy", cptr .double "param"]⟩

/-- Line 92: void cblas_srotmg(float *d1, float *d2, float *x1, const float y1, float *param); -/
def cblas_srotmg : Decl :=
  ⟨.void, "cblas_srotmg", [mptr .float "d1", mptr .float "d2", mptr .float "x1", cval .float "y1", mptr .float "param"]⟩

/-- Line 93: void cblas_drotmg(double *d1, double *d2, double *x1, const double y1, double *param); -/
def cblas_drotmg : Decl :=
  ⟨.void, "cblas_drotmg", [mptr .double "d1", mptr .double "d2", mptr .double "x1", cval .double "y1", mptr .double "param"]⟩

/-- Line 95: void cblas_sscal(const int n, const float alpha, float *x, const int incx); -/
def cblas_sscal : Decl :=
  ⟨.void, "cblas_sscal", [cval .int "n", cval .float "alpha", mptr .float "x", cval .int "incx"]⟩

/-- Line 96: void cblas_dscal(const int n, const double alpha, double *x, const int incx); -/
def cblas_dscal : Decl :=
  ⟨.void, "cblas_dscal", [cval .int "n", cval .double "alpha", mptr .double "x", cval .int "incx"]⟩

/-- Line 97: void cblas_cscal(const int n, const void *alpha, void *x, const int incx); -/
def cblas_cscal : Decl :=
  ⟨.void, "cblas_cscal", [cval .int "n", cptr .void "alpha", mptr .void "x", cval .int "incx"]⟩

/-- Line 98: void cblas_zscal(const int n, const void *alpha, void *x, const int incx); -/
def cblas_zscal : Decl :=
  ⟨.void, "cblas_zscal", [cval .int "n", cptr .void "alpha", mptr .void "x", cval .int "incx"]⟩

/-- Line 99: void cblas_csscal(const int n, const float alpha, void *x, const int incx); -/
def cblas_csscal : Decl :=
  ⟨.void, "cblas_csscal", [cval .int "n", cval .float "alpha", mptr .void "x", cval .int "incx"]⟩

/-- Line 100: void cblas_zdscal(const int n, const double alpha, void *x, const int incx); -/
def cblas_zdscal : Decl :=
  ⟨.void, "cblas_zdscal", [cval .int "n", cval .double "alpha", mptr .void "x", cval .int "incx"]⟩

/-- Line 102: void cblas_sswap(const int n, float *x, const int incx, float *y, const int incy); -/
def cblas_sswap : Decl :=
  ⟨.void, "cblas_sswap", [cval .int "n", mptr .float "x", cval .int "incx", mptr .float "y", cval .int "incy"]⟩

/-- Line 103: void cblas_dswap(const int n, double *x, const int incx, double *y, const int incy); -/
def cblas_dswap : Decl :=
  ⟨.void, "cblas_dswap", [cval .int "n", mptr .double "x", cval .int "incx", mptr .double "y", cval .int "incy"]⟩

/-- Line 104: void cblas_cswap(const int n, void *x, const int incx, void *y, const int incy); -/
def cblas_cswap : Decl :=
  ⟨.void, "cblas_cswap", [cval .int "n", mptr .void "x", cval .int "incx", mptr .void "y", cval .int "incy"]⟩

/-- Line 105: void cblas_zswap(const int n, void *x, const int incx, void *y, const int incy); -/
def cblas_zswap : Decl :=
  ⟨.void, "cblas_zswap", [cval .int "n", mptr .void "x", cval .int "incx", mptr .void "y", cval .int "incy"]⟩

/-- Line 107: unsigned int cblas_isamax(const int n, const float *x, const int incx); -/
def cblas_isamax : Decl :=
  ⟨.unsignedInt, "cblas_isamax", [cval .int "n", cptr .float "x", cval .int "incx"]⟩

/-- Line 108: unsigned int cblas_idamax(const int n, const double *x, const int incx); -/
def cblas_idamax : Decl :=
  ⟨.unsignedInt, "cblas_idamax", [cval .int "n", cptr .double "x", cval .int "incx"]⟩

/-- Line 109: unsigned int cblas_icamax(const int n, const void *x, const int incx); -/
def cblas_icamax : Decl :=
  ⟨.unsignedInt, "cblas_icamax", [cval .int "n", cptr .void "x", cval .int "incx"]⟩

/-- Line 110: unsigned int cblas_izamax(const int n, const void *x, const int incx); -/
def cblas_izamax : Decl :=
  ⟨.unsignedInt, "cblas_izamax", [cval .int "n", cptr .void "x", cval .int "incx"]⟩

/-- Line 112: unsigned int cblas_isamin(const int n, const float *x, const int incx); -/
def cblas_isamin : Decl :=
  ⟨.unsignedInt, "cblas_isamin", [cval .int "n", cptr .float "x", cval .int "incx"]⟩

/-- Line 113: unsigned int cblas_idamin(const int n, const double *x, const int incx); -/
def cblas_idamin : Decl :=
  ⟨.unsignedInt, "cblas_idamin", [cval .int "n", cptr .double "x", cval .int "incx"]⟩

/-- Line 114: unsigned int cblas_icamin(const int n, const void *x, const int incx); -/
def cblas_icamin : Decl :=
  ⟨.unsignedInt, "cblas_icamin", [cval .int "n", cptr .void "x", cval .int "incx"]⟩

/-- Line 115: unsigned int cblas_izamin(const int n, const void *x, const int incx); -/
def cblas_izamin : Decl :=
  ⟨.unsignedInt, "cblas_izamin", [cval .int "n", cptr .void "x", cval .int "incx"]⟩

/-- Line 121: void cblas_sgbmv(const CBLAS_ORDER order, const CBLAS_TRANSPOSE transA, const int m, const int n, const int kl, const int ku, const float alpha, const float *A, const int lda, const float *x, const int incx, const float beta, float *y, const int incy); -/
def cblas_sgbmv : Decl :=
  ⟨.void, "cblas_sgbmv", [cval .order "order", cval .transpose "transA", cval .int "m", cval .int "n", cval .int "kl", cval .int "ku", cval .float "alpha", cptr .float "A", cval .int "lda", cptr .float "x", cval .int "incx", cval .float "beta", mptr .float "y", cval .int "incy"]⟩

/-- Line 122: void cblas_dgbmv(const CBLAS_ORDER order, const CBLAS_TRANSPOSE transA, const int m, const int n, const int kl, const int ku, const double alpha, const double *A, const int lda, const double *x, const int incx, const double beta, double *y, const int incy); -/
def cblas_dgbmv : Decl :=
  ⟨.void, "cblas_dgbmv", [cval .order "order", cval .transpose "transA", cval .int "m", cval .int "n", cval .int "kl", cval .int "ku", cval .double "alpha", cptr .double "A", cval .int "lda", cptr .double "x", cval .int "incx", cval .double "beta", mptr .double "y", cval .int "incy"]⟩

/-- Line 123: void cblas_cgbmv(const CBLAS_ORDER order, const CBLAS_TRANSPOSE transA, const int m, const int n, const int kl, const int ku, const void *alpha, const void *A, const int lda, const void *x, const int incx, const void *beta, void *y, const int incy); -/
def cblas_cgbmv : Decl :=
  ⟨.void, "cblas_cgbmv", [cval .order "order", cval .transpose "transA", cval .int "m", cval .int "n", cval .int "kl", cval .int "ku", cptr .void "alpha", cptr .void "A", cval .int "lda", cptr .void "x", cval .int "incx", cptr .void "beta", mptr .void "y", cval .int "incy"]⟩

/-- Line 124: void cblas_zgbmv(const CBLAS_ORDER order, const CBLAS_TRANSPOSE transA, const int m, const int n, const int kl, const int ku, const void *alpha, const void *A, const int lda, const void *x, const int incx, const void *beta, void *y, const int incy); -/
def cblas_zgbmv : Decl :=
  ⟨.void, "cblas_zgbmv", [cval .order "order", cval .transpose "transA", cval .int "m", cval .int "n", cval .int "kl", cval .int "ku", cptr .void "alpha", cptr .void "A", cval .int "lda", cptr .void "x", cval .int "incx", cptr .void "beta", mptr .void "y", cval .int "incy"]⟩

/-- Line 126: void cblas_sgemv(const CBLAS_ORDER order, const CBLAS_TRANSPOSE transA, const int m, const int n, const float alpha, const float *A, const int lda, const float *x, const int incx, const float beta, float *y, const int incy); -/
def cblas_sgemv : Decl :=
  ⟨.void, "cblas_sgemv", [cval .order "order", cval .transpose "transA", cval .int "m", cval .int "n", cval .float "alpha", cptr .float "A", cval .int "lda", cptr .float "x", cval .int "incx", cval .float "beta", mptr .float "y", cval .int "incy"]⟩

/-- Line 127: void cblas_dgemv(const CBLAS_ORDER order, const CBLAS_TRANSPOSE transA, const int m, const int n, const double alpha, const double *A, const int lda, const double *x, const int incx, const double beta, double *y, const int incy); -/
def cblas_dgemv : Decl :=
  ⟨.void, "cblas_dgemv", [cval .order "order", cval .transpose "transA", cval .int "m", cval .int "n", cval .double "alpha", cptr .double "A", cval .int "lda", cptr .double "x", cval .int "incx", cval .double "beta", mptr .double "y", cval .int "incy"]⟩

/-- Line 128: void cblas_cgemv(const CBLAS_ORDER order, const CBLAS_TRANSPOSE transA, const int m, const int n, const void *alpha, const void *A, const int lda, const void *x, const int incx, const void *beta, void *y, const int incy); -/
def cblas_cgemv : Decl :=
  ⟨.void, "cblas_cgemv", [cval .order "order", cval .transpose "transA", cval .int "m", cval .int "n", cptr .void "alpha", cptr .void "A", cval .int "lda", cptr .void "x", cval .int "incx", cptr .void "beta", mptr .void "y", cval .int "incy"]⟩

/-- Line 129: void cblas_zgemv(const CBLAS_ORDER order, const CBLAS_TRANSPOSE transA, const int m, const int n, const void *alpha, const void *A, const int lda, const void *x, const int incx, const void *beta, void *y, const int incy); -/
def cblas_zgemv : Decl :=
  ⟨.void, "cblas_zgemv", [cval .order "order", cval .transpose "transA", cval .int "m", cval .int "n", cptr .void "alpha", cptr .void "A", cval .int "lda", cptr .void "x", cval .int "incx", cptr .void "beta", mptr .void "y", cval .int "incy"]⟩

/-- Line 131: void cblas_sger(const CBLAS_ORDER order, const int m, const int n, const float alpha, const float *x, const int incx, const float *y, const int incy, float *A, const int lda); -/
def cblas_sger : Decl :=
  ⟨.void, "cblas_sger", [cval .order "order", cval .int "m", cval .int "n", cval .float "alpha", cptr .float "x", cval .int "incx", cptr .float "y", cval .int "incy", mptr .float "A", cval .int "lda"]⟩

/-- Line 132: void cblas_dger(const CBLAS_ORDER order, const int m, const int n, const double alpha, const double *x, const int incx, const double *y, const int incy, double *A, const int lda); -/
def cblas_dger : Decl :=
  ⟨.void, "cblas_dger", [cval .order "order", cval .int "m", cval .int "n", cval .double "alpha", cptr .double "x", cval .int "incx", cptr .double "y", cval .int "incy", mptr .double "A", cval .int "lda"]⟩

/-- Line 134: void cblas_cgerc(const CBLAS_ORDER order, const int m, const int n, const void *alpha, const void *x, const int incx, const void *y, const int incy, void *A, const int lda); -/
def cblas_cgerc : Decl :=
  ⟨.void, "cblas_cgerc", [cval .order "order", cval .int "m", cval .int "n", cptr .void "alpha", cptr .void "x", cval .int "incx", cptr .void "y", cval .int "incy", mptr .void "A", cval .int "lda"]⟩

/-- Line 135: void cblas_zgerc(const CBLAS_ORDER order, const int m, const int n, const void *alpha, const void *x, const int incx, const void *y, const int incy, void *A, const int lda); -/
def cblas_zgerc : Decl :=
  ⟨.void, "cblas_zgerc", [cval .order "order", cval .int "m", cval .int "n", cptr .void "alpha", cptr .void "x", cval .int "incx", cptr .void "y", cval .int "incy", mptr .void "A", cval .int "lda"]⟩

/-- Line 137: void cblas_cgeru(const CBLAS_ORDER order, const int m, const int n, const void *alpha, const void *x, const int incx, const void *y, const int incy, void *A, const int lda); -/
def cblas_cgeru : Decl :=
  ⟨.void, "cblas_cgeru", [cval .order "order", cval .int "m", cval .int "n", cptr .void "alpha", cptr .void "x", cval .int "incx", cptr .void "y", cval .int "incy", mptr .void "A", cval .int "lda"]⟩

/-- Line 138: void cblas_zgeru(const CBLAS_ORDER order, const int m, const int n, const void *alpha, const void *x, const int incx, const void *y, const int incy, void *A, const int lda); -/
def cblas_zgeru : Decl :=
  ⟨.void, "cblas_zgeru", [cval .order "order", cval .int "m", cval .int "n", cptr .void "alpha", cptr .void "x", cval .int "incx", cptr .void "y", cval .int "incy", mptr .void "A", cval .int "lda"]⟩

/-- Line 140: void cblas_chbmv(const CBLAS_ORDER order, const CBLAS_UPLO uplo, const int n, const int k, const void *alpha, const void *A, const int lda, const void *x, const int incx, const void *beta, void *y, const int incy); -/
def cblas_chbmv : Decl :=
  ⟨.void, "cblas_chbmv", [cval .order "order", cval .uplo "uplo", cval .int "n", cval .int "k", cptr .void "alpha", cptr .void "A", cval .int "lda", cptr .void "x", cval .int "incx", cptr .void "beta", mptr .void "y", cval .int "incy"]⟩

/-- Line 141: void cblas_zhbmv(const CBLAS_ORDER order, const CBLAS_UPLO uplo, const int n, const int k, const void *alpha, const void *A, const int lda, const void *x, const int incx, const void *beta, void *y, const int incy); -/
def cblas_zhbmv : Decl :=
  ⟨.void, "cblas_zhbmv", [cval .order "order", cval .uplo "uplo", cval .int "n", cval .int "k", cptr .void "alpha", cptr .void "A", cval .int "lda", cptr .void "x", cval .int "incx", cptr .void "beta", mptr .void "y", cval .int "incy"]⟩

/-- Line 143: void cblas_chemv(const CBLAS_ORDER order, const CBLAS_UPLO uplo, const int n, const void *alpha, const void *A, const int lda, const void *x, const int incx, const void *beta, void *y, const int incy); -/
def cblas_chemv : Decl :=
  ⟨.void, "cblas_chemv", [cval .order "order", cval .uplo "uplo", cval .int "n", cptr .void "alpha", cptr .void "A", cval .int "lda", cptr .void "x", cval .int "incx", cptr .void "beta", mptr .void "y", cval .int "incy"]⟩

/-- Line 144: void cblas_zhemv(const CBLAS_ORDER order, const CBLAS_UPLO uplo, const int n, const void *alpha, const void *A, const int lda, const void *x, const int incx, const void *beta, void *y, const int incy); -/
def cblas_zhemv : Decl :=
  ⟨.void, "cblas_zhemv", [cval .order "order", cval .uplo "uplo", cval .int "n", cptr .void "alpha", cptr .void "A", cval .int "lda", cptr .void "x", cval .int "incx", cptr .void "beta", mptr .void "y", cval .int "incy"]⟩

/-- Line 146: void cblas_cher(const CBLAS_ORDER order, const CBLAS_UPLO uplo, const int n, const float alpha, const void *x, const int incx, void *A, const int lda); -/
def cblas_cher : Decl :=
  ⟨.void, "cblas_cher", [cval .order "order", cval .uplo "uplo", cval .int "n", cval .float "alpha", cptr .void "x", cval .int "incx", mptr .void "A", cval .int "lda"]⟩

/-- Line 147: void cblas_zher(const CBLAS_ORDER order, const CBLAS_UPLO uplo, const int n, const double alpha, const void *x, const int incx, void *A, const int lda); -/
def cblas_zher : Decl :=
  ⟨.void, "cblas_zher", [cval .order "order", cval .uplo "uplo", cval .int "n", cval .double "alpha", cptr .void "x", cval .int "incx", mptr .void "A", cval .int "lda"]⟩

/-- Line 149: void cblas_cher2(const CBLAS_ORDER order, const CBLAS_UPLO uplo, const int n, const void *alpha, const void *x, const int incx, const void *y, const int incy, void *A, const int lda); -/
def cblas_cher2 : Decl :=
  ⟨.void, "cblas_cher2", [cval .order "order", cval .uplo "uplo", cval .int "n", cptr .void "alpha", cptr .void "x", cval .int "incx", cptr .void "y", cval .int "incy", mptr .void "A", cval .int "lda"]⟩

/-- Line 150: void cblas_zher2(const CBLAS_ORDER order, const CBLAS_UPLO uplo, const int n, const void *alpha, const void *x, const int incx, const void *y, const int incy, void *A, const int lda); -/
def cblas_zher2 : Decl :=
  ⟨.void, "cblas_zher2", [cval .order "order", cval .uplo "uplo", cval .int "n", cptr .void "alpha", cptr .void "x", cval .int "incx", cptr .void "y", cval .int "incy", mptr .void "A", cval .int "lda"]⟩

/-- Line 152: void cblas_chpmv(const CBLAS_ORDER order, const CBLAS_UPLO uplo, const int n, const void *alpha, const void *Ap, const void *x, const int incx, const void *beta, void *y, const int incy); -/
def cblas_chpmv : Decl :=
  ⟨.void, "cblas_chpmv", [cval .order "order", cval .uplo "uplo", cval .int "n", cptr .void "alpha", cptr .void "Ap", cptr .void "x", cval .int "incx", cptr .void "beta", mptr .void "y", cval .int "incy"]⟩

/-- Line 153: void cblas_zhpmv(const CBLAS_ORDER order, const CBLAS_UPLO uplo, const int n, const void *alpha, const void *Ap, const void *x, const int incx, const void *beta, void *y, const int incy); -/
def cblas_zhpmv : Decl :=
  ⟨.void, "cblas_zhpmv", [cval .order "order", cval .uplo "uplo", cval .int "n", cptr .void "alpha", cptr .void "Ap", cptr .void "x", cval .int "incx", cptr .void "beta", mptr .void "y", cval .int "incy"]⟩

/-- Line 155: void cblas_chpr(const CBLAS_ORDER order, const CBLAS_UPLO uplo, const int n, const float alpha, const void *x, const int incx, void *Ap); -/
def cblas_chpr : Decl :=
  ⟨.void, "cblas_chpr", [cval .order "order", cval .uplo "uplo", cval .int "n", cval .float "alpha", cptr .void "x", cval .int "incx", mptr .void "Ap"]⟩

/-- Line 156: void cblas_zhpr(const CBLAS_ORDER order, const CBLAS_UPLO uplo, const int n, const double alpha, const void *x, const int incx, void *Ap); -/
def cblas_zhpr : Decl :=
  ⟨.void, "cblas_zhpr", [cval .order "order", cval .uplo "uplo", cval .int "n", cval .double "alpha", cptr .void "x", cval .int "incx", mptr .void "Ap"]⟩

/-- Line 158: void cblas_chpr2(const CBLAS_ORDER order, const CBLAS_UPLO uplo, const int n, const void *alpha, const void *x, const int incx, const void *y, const int incy, void *Ap); -/
def cblas_chpr2 : Decl :=
  ⟨.void, "cblas_chpr2", [cval .order "order", cval .uplo "uplo", cval .int "n", cptr .void "alpha", cptr .void "x", cval .int "incx", cptr .void "y", cval .int "incy", mptr .void "Ap"]⟩

/-- Line 159: void cblas_zhpr2(const CBLAS_ORDER order, const CBLAS_UPLO uplo, const int n, const void *alpha, const void *x, const int incx, const void *y, const int incy, void *Ap); -/
def cblas_zhpr2 : Decl :=
  ⟨.void, "cblas_zhpr2", [cval .order "order", cval .uplo "uplo", cval .int "n", cptr .void "alpha", cptr .void "x", cval .int "incx", cptr .void "y", cval .int "incy", mptr .void "Ap"]⟩

/-- Line 161: void cblas_ssbmv(const CBLAS_ORDER order, const CBLAS_UPLO uplo, const int n, const int k, const float alpha, const float *A, const int lda, const float *x, const int incx, const float beta, float *y, const int incy); -/
def cblas_ssbmv : Decl :=
  ⟨.void, "cblas_ssbmv", [cval .order "order", cval .uplo "uplo", cval .int "n", cval .int "k", cval .float "alpha", cptr .float "A", cval .int "lda", cptr .float "x", cval .int "incx", cval .float "beta", mptr .float "y", cval .int "incy"]⟩

/-- Line 162: void cblas_dsbmv(const CBLAS_ORDER order, const CBLAS_UPLO uplo, const int n, const int k, const double alpha, const double *A, const int lda, const double *x, const int incx, const double beta, double *y, const int incy); -/
def cblas_dsbmv : Decl :=
  ⟨.void, "cblas_dsbmv", [cval .order "order", cval .uplo "uplo", cval .int "n", cval .int "k", cval .double "alpha", cptr .double "A", cval .int "lda", cptr .double "x", cval .int "incx", cval .double "beta", mptr .double "y", cval .int "incy"]⟩

/-- Line 164: void cblas_sspmv(const CBLAS_ORDER order, const CBLAS_UPLO uplo, const int n, const float alpha, const float *Ap, const float *x, const int incx, const float beta, float *y, const int incy); -/
def cblas_sspmv : Decl :=
  ⟨.void, "cblas_sspmv", [cval .order "order", cval .uplo "uplo", cval .int "n", cval .float "alpha", cptr .float "Ap", cptr .float "x", cval .int "incx", cval .float "beta", mptr .float "y", cval .int "incy"]⟩

/-- Line 165: void cblas_dspmv(const CBLAS_ORDER order, const CBLAS_UPLO uplo, const int n, const double alpha, const double *Ap, const double *x, const int incx, const double beta, double *y, const int incy); -/
def cblas_dspmv : Decl :=
  ⟨.void, "cblas_dspmv", [cval .order "order", cval .uplo "uplo", cval .int "n", cval .double "alpha", cptr .double "Ap", cptr .double "x", cval .int "incx", cval .double "beta", mptr .double "y", cval .int "incy"]⟩

/-- Line 167: void cblas_sspr(const CBLAS_ORDER order, const CBLAS_UPLO uplo, const int n, const float alpha, const float *x, const int incx, float *Ap); -/
def cblas_sspr : Decl :=
  ⟨.void, "cblas_sspr", [cval .order "order", cval .uplo "uplo", cval .int "n", cval .float "alpha", cptr .float "x", cval .int "incx", mptr .float "Ap"]⟩

/-- Line 168: void cblas_dspr(const CBLAS_ORDER order, const CBLAS_UPLO uplo, const int n, const double alpha, const double *x, const int incx, double *Ap); -/
def cblas_dspr : Decl :=
  ⟨.void, "cblas_dspr", [cval .order "order", cval .uplo "uplo", cval .int "n", cval .double "alpha", cptr .double "x", cval .int "incx", mptr .double "Ap"]⟩

/-- Line 170: void cblas_sspr2(const CBLAS_ORDER order, const CBLAS_UPLO uplo, const int n, const float alpha, const float *x, const int incx, const float *y, const int incy, float *Ap); -/
def cblas_sspr2 : Decl :=
  ⟨.void, "cblas_sspr2", [cval .order "order", cval .uplo "uplo", cval .int "n", cval .float "alpha", cptr .float "x", cval .int "incx", cptr .float "y", cval .int "incy", mptr .float "Ap"]⟩

/-- Line 171: void cblas_dspr2(const CBLAS_ORDER order, const CBLAS_UPLO uplo, const int n, const double alpha, const double *x, const int incx, const double *y, const int incy, double *Ap); -/
def cblas_dspr2 : Decl :=
  ⟨.void, "cblas_dspr2", [cval .order "order", cval .uplo "uplo", cval .int "n", cval .double "alpha", cptr .double "x", cval .int "incx", cptr .double "y", cval .int "incy", mptr .double "Ap"]⟩

/-- Line 173: void cblas_ssymv(const CBLAS_ORDER order, const CBLAS_UPLO uplo, const int n, const float alpha, const float *A, const int lda, const float *x, const int incx, const float beta, float *y, const int incy); -/
def cblas_ssymv : Decl :=
  ⟨.void, "cblas_ssymv", [cval .order "order", cval .uplo "uplo", cval .int "n", cval .float "alpha", cptr .float "A", cval .int "lda", cptr .float "x", cval .int "incx", cval .float "beta", mptr .float "y", cval .int "incy"]⟩

/-- Line 174: void cblas_dsymv(const CBLAS_ORDER order, const CBLAS_UPLO uplo, const int n, const double alpha, const double *A, const int lda, const double *x, const int incx, const double beta, double *y, const int incy); -/
def cblas_dsymv : Decl :=
  ⟨.void, "cblas_dsymv", [cval .order "order", cval .uplo "uplo", cval .int "n", cval .double "alpha", cptr .double "A", cval .int "lda", cptr .double "x", cval .int "incx", cval .double "beta", mptr .double "y", cval .int "incy"]⟩

/-- Line 176: void cblas_ssyr(const CBLAS_ORDER order, const CBLAS_UPLO uplo, const int n, const float alpha, const float *x, const int incx, float *A, const int lda); -/
def cblas_ssyr : Decl :=
  ⟨.void, "cblas_ssyr", [cval .order "order", cval .uplo "uplo", cval .int "n", cval .float "alpha", cptr .float "x", cval .int "incx", mptr .float "A", cval .int "lda"]⟩

/-- Line 177: void cblas_dsyr(const CBLAS_ORDER order, const CBLAS_UPLO uplo, const int n, const double alpha, const double *x, const int incx, double *A, const int lda); -/
def cblas_dsyr : Decl :=
  ⟨.void, "cblas_dsyr", [cval .order "order", cval .uplo "uplo", cval .int "n", cval .double "alpha", cptr .double "x", cval .int "incx", mptr .double "A", cval .int "lda"]⟩

/-- Line 179: void cblas_ssyr2(const CBLAS_ORDER order, const CBLAS_UPLO uplo, const int n, const float alpha, const float *x, const int incx, const float *y, const int incy, float *A, const int lda); -/
def cblas_ssyr2 : Decl :=
  ⟨.void, "cblas_ssyr2", [cval .order "order", cval .uplo "uplo", cval .int "n", cval .float "alpha", cptr .float "x", cval .int "incx", cptr .float "y", cval .int "incy", mptr .float "A", cval .int "lda"]⟩

/-- Line 180: void cblas_dsyr2(const CBLAS_ORDER order, const CBLAS_UPLO uplo, const int n, const double alpha, const double *x, const int incx, const double *y, const int incy, double *A, const int lda); -/
def cblas_dsyr2 : Decl :=
  ⟨.void, "cblas_dsyr2", [cval .order "order", cval .uplo "uplo", cval .int "n", cval .double "alpha", cptr .double "x", cval .int "incx", cptr .double "y", cval .int "incy", mptr .double "A", cval .int "lda"]⟩

/-- Line 182: void cblas_stbmv(const CBLAS_ORDER order, const CBLAS_UPLO uplo, const CBLAS_TRANSPOSE transA, const CBLAS_DIAG diag, const int n, const int k, const float *A, const int lda, float *x, const int incx); -/
def cblas_stbmv : Decl :=
  ⟨.void, "cblas_stbmv", [cval .order "order", cval .uplo "uplo", cval .transpose "transA", cval .diag "diag", cval .int "n", cval .int "k", cptr .float "A", cval .int "lda", mptr .float "x", cval .int "incx"]⟩

/-- Line 183: void cblas_dtbmv(const CBLAS_ORDER order, const CBLAS_UPLO uplo, const CBLAS_TRANSPOSE transA, const CBLAS_DIAG diag, const int n, const int k, const double *A, const int lda, double *x, const int incx); -/
def cblas_dtbmv : Decl :=
  ⟨.void, "cblas_dtbmv", [cval .order "order", cval .uplo "uplo", cval .transpose "transA", cval .diag "diag", cval .int "n", cval .int "k", cptr .double "A", cval .int "lda", mptr .double "x", cval .int "incx"]⟩

/-- Line 184: void cblas_ctbmv(const CBLAS_ORDER order, const CBLAS_UPLO uplo, const CBLAS_TRANSPOSE transA, const CBLAS_DIAG diag, const int n, const int k, const void *A, const int lda, void *x, const int incx); -/
def cblas_ctbmv : Decl :=
  ⟨.void, "cblas_ctbmv", [cval .order "order", cval .uplo "uplo", cval .transpose "transA", cval .diag "diag", cval .int "n", cval .int "k", cptr .void "A", cval .int "lda", mptr .void "x", cval .int "incx"]⟩

/-- Line 185: void cblas_ztbmv(const CBLAS_ORDER order, const CBLAS_UPLO uplo, const CBLAS_TRANSPOSE transA, const CBLAS_DIAG diag, const int n, const int k, const void *A, const int lda, void *x, const int incx); -/
def cblas_ztbmv : Decl :=
  ⟨.void, "cblas_ztbmv", [cval .order "order", cval .uplo "uplo", cval .transpose "transA", cval .diag "diag", cval .int "n", cval .int "k", cptr .void "A", cval .int "lda", mptr .void "x", cval .int "incx"]⟩

/-- Line 187: void cblas_stbsv(const CBLAS_ORDER order, const CBLAS_UPLO uplo, const CBLAS_TRANSPOSE transA, const CBLAS_DIAG diag, const int n, const int k, const float *A, const int lda, float *x, const int incx); -/
def cblas_stbsv : Decl :=
  ⟨.void, "cblas_stbsv", [cval .order "order", cval .uplo "uplo", cval .transpose "transA", cval .diag "diag", cval .int "n", cval .int "k", cptr .float "A", cval .int "lda", mptr .float "x", cval .int "incx"]⟩

/-- Line 188: void cblas_dtbsv(const CBLAS_ORDER order, const CBLAS_UPLO uplo, const CBLAS_TRANSPOSE transA, const CBLAS_DIAG diag, const int n, const int k, const double *A, const int lda, double *x, const int incx); -/
def cblas_dtbsv : Decl :=
  ⟨.void, "cblas_dtbsv", [cval .order "order", cval .uplo "uplo", cval .transpose "transA", cval .diag "diag", cval .int "n", cval .int "k", cptr .double "A", cval .int "lda", mptr .double "x", cval .int "incx"]⟩

/-- Line 189: void cblas_ctbsv(const CBLAS_ORDER order, const CBLAS_UPLO uplo, const CBLAS_TRANSPOSE transA, const CBLAS_DIAG diag, const int n, const int k, const void *A, const int lda, void *x, const int incx); -/
def cblas_ctbsv : Decl :=
  ⟨.void, "cblas_ctbsv", [cval .order "order", cval .uplo "uplo", cval .transpose "transA", cval .diag "diag", cval .int "n", cval .int "k", cptr .void "A", cval .int "lda", mptr .void "x", cval .int "incx"]⟩

/-- Line 190: void cblas_ztbsv(const CBLAS_ORDER order, const CBLAS_UPLO uplo, const CBLAS_TRANSPOSE transA, const CBLAS_DIAG diag, const int n, const int k, const void *A, const int lda, void *x, const int incx); -/
def cblas_ztbsv : Decl :=
  ⟨.void, "cblas_ztbsv", [cval .order "order", cval .uplo "uplo", cval .transpose "transA", cval .diag "diag", cval .int "n", cval .int "k", cptr .void "A", cval .int "lda", mptr .void "x", cval .int "incx"]⟩

/-- Line 192: void cblas_stpmv(const CBLAS_ORDER order, const CBLAS_UPLO uplo, const CBLAS_TRANSPOSE transA, const CBLAS_DIAG diag, const int n, const float *Ap, float *x, const int incx); -/
def cblas_stpmv : Decl :=
  ⟨.void, "cblas_stpmv", [cval .order "order", cval .uplo "uplo", cval .transpose "transA", cval .diag "diag", cval .int "n", cptr .float "Ap", mptr .float "x", cval .int "incx"]⟩

/-- Line 193: void cblas_dtpmv(const CBLAS_ORDER order, const CBLAS_UPLO uplo, const CBLAS_TRANSPOSE transA, const CBLAS_DIAG diag, const int n, const double *Ap, double *x, const int incx); -/
def cblas_dtpmv : Decl :=
  ⟨.void, "cblas_dtpmv", [cval .order "order", cval .uplo "uplo", cval .transpose "transA", cval .diag "diag", cval .int "n", cptr .double "Ap", mptr .double "x", cval .int "incx"]⟩

/-- Line 194: void cblas_ctpmv(const CBLAS_ORDER order, const CBLAS_UPLO uplo, const CBLAS_TRANSPOSE transA, const CBLAS_DIAG diag, const int n, const void *Ap, void *x, const int incx); -/
def cblas_ctpmv : Decl :=
  ⟨.void, "cblas_ctpmv", [cval .order "order", cval .uplo "uplo", cval .transpose "transA", cval .diag "diag", cval .int "n", cptr .void "Ap", mptr .void "x", cval .int "incx"]⟩

/-- Line 195: void cblas_ztpmv(const CBLAS_ORDER order, const CBLAS_UPLO uplo, const CBLAS_TRANSPOSE transA, const CBLAS_DIAG diag, const int n, const void *Ap, void *x, const int incx); -/
def cblas_ztpmv : Decl :=
  ⟨.void, "cblas_ztpmv", [cval .order "order", cval .uplo "uplo", cval .transpose "transA", cval .diag "diag", cval .int "n", cptr .void "Ap", mptr .void "x", cval .int "incx"]⟩

/-- Line 197: void cblas_stpsv(const CBLAS_ORDER order, const CBLAS_UPLO uplo, const CBLAS_TRANSPOSE transA, const CBLAS_DIAG diag, const int n, const float *Ap, float *x, const int incx); -/
def cblas_stpsv : Decl :=
  ⟨.void, "cblas_stpsv", [cval .order "order", cval .uplo "uplo", cval .transpose "transA", cval .diag "diag", cval .int "n", cptr .float "Ap", mptr .float "x", cval .int "incx"]⟩

/-- Line 198: void cblas_dtpsv(const CBLAS_ORDER order, const CBLAS_UPLO uplo, const CBLAS_TRANSPOSE transA, const CBLAS_DIAG diag, const int n, const double *Ap, double *x, const int incx); -/
def cblas_dtpsv : Decl :=
  ⟨.void, "cblas_dtpsv", [cval .order "order", cval .uplo "uplo", cval .transpose "transA", cval .diag "diag", cval .int "n", cptr .double "Ap", mptr .double "x", cval .int "incx"]⟩

/-- Line 199: void cblas_ctpsv(const CBLAS_ORDER order, const CBLAS_UPLO uplo, const CBLAS_TRANSPOSE transA, const CBLAS_DIAG diag, const int n, const void *Ap, void *x, const int incx); -/
def cblas_ctpsv : Decl :=
  ⟨.void, "cblas_ctpsv", [cval .order "order", cval .uplo "uplo", cval .transpose "transA", cval .diag "diag", cval .int "n", cptr .void "Ap", mptr .void "x", cval .int "incx"]⟩

/-- Line 200: void cblas_ztpsv(const CBLAS_ORDER order, const CBLAS_UPLO uplo, const CBLAS_TRANSPOSE transA, const CBLAS_DIAG diag, const int n, const void *Ap, void *x, const int incx); -/
def cblas_ztpsv : Decl :=
  ⟨.void, "cblas_ztpsv", [cval .order "order", cval .uplo "uplo", cval .transpose "transA", cval .diag "diag", cval .int "n", cptr .void "Ap", mptr .void "x", cval .int "incx"]⟩

/-- Line 202: void cblas_strmv(const CBLAS_ORDER order, const CBLAS_UPLO uplo, const CBLAS_TRANSPOSE transA, const CBLAS_DIAG diag, const int n, const float *A, const int lda, float *x, const int incx); -/
def cblas_strmv : Decl :=
  ⟨.void, "cblas_strmv", [cval .order "order", cval .uplo "uplo", cval .transpose "transA", cval .diag "diag", cval .int "n", cptr .float "A", cval .int "lda", mptr .float "x", cval .int "incx"]⟩

/-- Line 203: void cblas_dtrmv(const CBLAS_ORDER order, const CBLAS_UPLO uplo, const CBLAS_TRANSPOSE transA, const CBLAS_DIAG diag, const int n, const double *A, const int lda, double *x, const int incx); -/
def cblas_dtrmv : Decl :=
  ⟨.void, "cblas_dtrmv", [cval .order "order", cval .uplo "uplo", cval .transpose "transA", cval .diag "diag", cval .int "n", cptr .double "A", cval .int "lda", mptr .double "x", cval .int "incx"]⟩

/-- Line 204: void cblas_ctrmv(const CBLAS_ORDER order, const CBLAS_UPLO uplo, const CBLAS_TRANSPOSE transA, const CBLAS_DIAG diag, const int n, const void *A, const int lda, void *x, const int incx); -/
def cblas_ctrmv : Decl :=
  ⟨.void, "cblas_ctrmv", [cval .order "order", cval .uplo "uplo", cval .transpose "transA", cval .diag "diag", cval .int "n", cptr .void "A", cval .int "lda", mptr .void "x", cval .int "incx"]⟩

/-- Line 205: void cblas_ztrmv(const CBLAS_ORDER order, const CBLAS_UPLO uplo, const CBLAS_TRANSPOSE transA, const CBLAS_DIAG diag, const int n, const void *A, const int lda, void *x, const int incx); -/
def cblas_ztrmv : Decl :=
  ⟨.void, "cblas_ztrmv", [cval .order "order", cval .uplo "uplo", cval .transpose "transA", cval .diag "diag", cval .int "n", cptr .void "A", cval .int "lda", mptr .void "x", cval .int "incx"]⟩

/-- Line 207: void cblas_strsv(const CBLAS_ORDER order, const CBLAS_UPLO uplo, const CBLAS_TRANSPOSE transA, const CBLAS_DIAG diag, const int n, const float *A, const int lda, float *x, const int incx); -/
def cblas_strsv : Decl :=
  ⟨.void, "cblas_strsv", [cval .order "order", cval .uplo "uplo", cval .transpose "transA", cval .diag "diag", cval .int "n", cptr .float "A", cval .int "lda", mptr .float "x", cval .int "incx"]⟩

/-- Line 208: void cblas_dtrsv(const CBLAS_ORDER order, const CBLAS_UPLO uplo, const CBLAS_TRANSPOSE transA, const CBLAS_DIAG diag, const int n, const double *A, const int lda, double *x, const int incx); -/
def cblas_dtrsv : Decl :=
  ⟨.void, "cblas_dtrsv", [cval .order "order", cval .uplo "uplo", cval .transpose "transA", cval .diag "diag", cval .int "n", cptr .double "A", cval .int "lda", mptr .double "x", cval .int "incx"]⟩

/-- Line 209: void cblas_ctrsv(const CBLAS_ORDER order, const CBLAS_UPLO uplo, const CBLAS_TRANSPOSE transA, const CBLAS_DIAG diag, const int n, const void *A, const int lda, void *x, const int incx); -/
def cblas_ctrsv : Decl :=
  ⟨.void, "cblas_ctrsv", [cval .order "order", cval .uplo "uplo", cval .transpose "transA", cval .diag "diag", cval .int "n", cptr .void "A", cval .int "lda", mptr .void "x", cval .int "incx"]⟩

/-- Line 210: void cblas_ztrsv(const CBLAS_ORDER order, const CBLAS_UPLO uplo, const CBLAS_TRANSPOSE transA, const CBLAS_DIAG diag, const int n, const void *A, const int lda, void *x, const int incx); -/
def cblas_ztrsv : Decl :=
  ⟨.void, "cblas_ztrsv", [cval .order "order", cval .uplo "uplo", cval .transpose "transA", cval .diag "diag", cval .int "n", cptr .void "A", cval .int "lda", mptr .void "x", cval .int "incx"]⟩

/-- Line 216: void cblas_sgemm(const CBLAS_ORDER order, const CBLAS_TRANSPOSE transA, const CBLAS_TRANSPOSE transB, const int m, const int n, const int k, const float alpha, const float *A, const int lda, const float *B, const int ldb, const float beta, float *C, const int ldc); -/
def cblas_sgemm : Decl :=
  ⟨.void, "cblas_sgemm", [cval .order "order", cval .transpose "transA", cval .transpose "transB", cval .int "m", cval .int "n", cval .int "k", cval .float "alpha", cptr .float "A", cval .int "lda", cptr .float "B", cval .int "ldb", cval .float "beta", mptr .float "C", cval .int "ldc"]⟩

/-- Line 217: void cblas_dgemm(const CBLAS_ORDER order, const CBLAS_TRANSPOSE transA, const CBLAS_TRANSPOSE transB, const int m, const int n, const int k, const double alpha, const double *A, const int lda, const double *B, const int ldb, const double beta, double *C, const int ldc); -/
def cblas_dgemm : Decl :=
  ⟨.void, "cblas_dgemm", [cval .order "order", cval .transpose "transA", cval .transpose "transB", cval .int "m", cval .int "n", cval .int "k", cval .double "alpha", cptr .double "A", cval .int "lda", cptr .double "B", cval .int "ldb", cval .double "beta", mptr .double "C", cval .int "ldc"]⟩

/-- Line 218: void cblas_cgemm(const CBLAS_ORDER order, const CBLAS_TRANSPOSE transA, const CBLAS_TRANSPOSE transB, const int m, const int n, const int k, const void *alpha, const void *A, const int lda, const void *B, const int ldb, const void *beta, void *C, const int ldc); -/
def cblas_cgemm : Decl :=
  ⟨.void, "cblas_cgemm", [cval .order "order", cval .transpose "transA", cval .transpose "transB", cval .int "m", cval .int "n", cval .int "k", cptr .void "alpha", cptr .void "A", cval .int "lda", cptr .void "B", cval .int "ldb", cptr .void "beta", mptr .void "C", cval .int "ldc"]⟩

/-- Line 219: void cblas_zgemm(const CBLAS_ORDER order, const CBLAS_TRANSPOSE transA, const CBLAS_TRANSPOSE transB, const int m, const int n, const int k, const void *alpha, const void *A, const int lda, const void *B, const int ldb, const void *beta, void *C, const int ldc); -/
def cblas_zgemm : Decl :=
  ⟨.void, "cblas_zgemm", [cval .order "order", cval .transpose "transA", cval .transpose "transB", cval .int "m", cval .int "n", cval .int "k", cptr .void "alpha", cptr .void "A", cval .int "lda", cptr .void "B", cval .int "ldb", cptr .void "beta", mptr .void "C", cval .int "ldc"]⟩

/-- Line 221: void cblas_chemm(const CBLAS_ORDER order, const CBLAS_SIDE side, const CBLAS_UPLO uplo, const int m, const int n, const void *alpha, const void *A, const int lda, const void *B, const int ldb, const void *beta, void *C, const int ldc); -/
def cblas_chemm : Decl :=
  ⟨.void, "cblas_chemm", [cval .order "order", cval .side "side", cval .uplo "uplo", cval .int "m", cval .int "n", cptr .void "alpha", cptr .void "A", cval .int "lda", cptr .void "B", cval .int "ldb", cptr .void "beta", mptr .void "C", cval .int "ldc"]⟩

/-- Line 222: void cblas_zhemm(const CBLAS_ORDER order, const CBLAS_SIDE side, const CBLAS_UPLO uplo, const int m, const int n, const void *alpha, const void *A, const int lda, const void *B, const int ldb, const void *beta, void *C, const int ldc); -/
def cblas_zhemm : Decl :=
  ⟨.void, "cblas_zhemm", [cval .order "order", cval .side "side", cval .uplo "uplo", cval .int "m", cval .int "n", cptr .void "alpha", cptr .void "A", cval .int "lda", cptr .void "B", cval .int "ldb", cptr .void "beta", mptr .void "C", cval .int "ldc"]⟩

/-- Line 224: void cblas_cherk(const CBLAS_ORDER order, const CBLAS_UPLO uplo, const CBLAS_TRANSPOSE trans, const int n, const int k, const float alpha, const void *A, const int lda, const float beta, void *C, const int ldc); -/
def cblas_cherk : Decl :=
  ⟨.void, "cblas_cherk", [cval .order "order", cval .uplo "uplo", cval .transpose "trans", cval .int "n", cval .int "k", cval .float "alpha", cptr .void "A", cval .int "lda", cval .float "beta", mptr .void "C", cval .int "ldc"]⟩

/-- Line 225: void cblas_zherk(const CBLAS_ORDER order, const CBLAS_UPLO uplo, const CBLAS_TRANSPOSE trans, const int n, const int k, const double alpha, const void *A, const int lda, const double beta, void *C, const int ldc); -/
def cblas_zherk : Decl :=
  ⟨.void, "cblas_zherk", [cval .order "order", cval .uplo "uplo", cval .transpose "trans", cval .int "n", cval .int "k", cval .double "alpha", cptr .void "A", cval .int "lda", cval .double "beta", mptr .void "C", cval .int "ldc"]⟩

/-- Line 227: void cblas_cher2k(const CBLAS_ORDER order, const CBLAS_UPLO uplo, const CBLAS_TRANSPOSE trans, const int n, const int k, const void *alpha, const void *A, const int lda, const void *B, const int ldb, const float beta, void *C, const int ldc); -/
def cblas_cher2k : Decl :=
  ⟨.void, "cblas_cher2k", [cval .order "order", cval .uplo "uplo", cval .transpose "trans", cval .int "n", cval .int "k", cptr .void "alpha", cptr .void "A", cval .int "lda", cptr .void "B", cval .int "ldb", cval .float "beta", mptr .void "C", cval .int "ldc"]⟩

/-- Line 228: void cblas_zher2k(const CBLAS_ORDER order, const CBLAS_UPLO uplo, const CBLAS_TRANSPOSE trans, const int n, const int k, const void *alpha, const void *A, const int lda, const void *B, const int ldb, const double beta, void *C, const int ldc); -/
def cblas_zher2k : Decl :=
  ⟨.void, "cblas_zher2k", [cval .order "order", cval .uplo "uplo", cval .transpose "trans", cval .int "n", cval .int "k", cptr .void "alpha", cptr .void "A", cval .int "lda", cptr .void "B", cval .int "ldb", cval .double "beta", mptr .void "C", cval .int "ldc"]⟩

/-- Line 230: void cblas_ssymm(const CBLAS_ORDER order, const CBLAS_SIDE side, const CBLAS_UPLO uplo, const int m, const int n, const float alpha, const float *A, const int lda, const float *B, const int ldb, const float beta, float *C, const int ldc); -/
def cblas_ssymm : Decl :=
  ⟨.void, "cblas_ssymm", [cval .order "order", cval .side "side", cval .uplo "uplo", cval .int "m", cval .int "n", cval .float "alpha", cptr .float "A", cval .int "lda", cptr .float "B", cval .int "ldb", cval .float "beta", mptr .float "C", cval .int "ldc"]⟩

/-- Line 231: void cblas_dsymm(const CBLAS_ORDER order, const CBLAS_SIDE side, const CBLAS_UPLO uplo, const int m, const int n, const double alpha, const double *A, const int lda, const double *B, const int ldb, const double beta, double *C, const int ldc); -/
def cblas_dsymm : Decl :=
  ⟨.void, "cblas_dsymm", [cval .order "order", cval .side "side", cval .uplo "uplo", cval .int "m", cval .int "n", cval .double "alpha", cptr .double "A", cval .int "lda", cptr .double "B", cval .int "ldb", cval .double "beta", mptr .double "C", cval .int "ldc"]⟩

/-- Line 232: void cblas_csymm(const CBLAS_ORDER order, const CBLAS_SIDE side, const CBLAS_UPLO uplo, const int m, const int n, const void *alpha, const void *A, const int lda, const void *B, const int ldb, const void *beta, void *C, const int ldc); -/
def cblas_csymm : Decl :=
  ⟨.void, "cblas_csymm", [cval .order "order", cval .side "side", cval .uplo "uplo", cval .int "m", cval .int "n", cptr .void "alpha", cptr .void "A", cval .int "lda", cptr .void "B", cval .int "ldb", cptr .void "beta", mptr .void "C", cval .int "ldc"]⟩

/-- Line 233: void cblas_zsymm(const CBLAS_ORDER order, const CBLAS_SIDE side, const CBLAS_UPLO uplo, const int m, const int n, const void *alpha, const void *A, const int lda, const void *B, const int ldb, const void *beta, void *C, const int ldc); -/
def cblas_zsymm : Decl :=
  ⟨.void, "cblas_zsymm", [cval .order "order", cval .side "side", cval .uplo "uplo", cval .int "m", cval .int "n", cptr .void "alpha", cptr .void "A", cval .int "lda", cptr .void "B", cval .int "ldb", cptr .void "beta", mptr .void "C", cval .int "ldc"]⟩

/-- Line 235: void cblas_ssyrk(const CBLAS_ORDER order, const CBLAS_UPLO uplo, const CBLAS_TRANSPOSE trans, const int n, const int k, const float alpha, const float *A, const int lda, const float beta, float *C, const int ldc); -/
def cblas_ssyrk : Decl :=
  ⟨.void, "cblas_ssyrk", [cval .order "order", cval .uplo "uplo", cval .transpose "trans", cval .int "n", cval .int "k", cval .float "alpha", cptr .float "A", cval .int "lda", cval .float "beta", mptr .float "C", cval .int "ldc"]⟩

/-- Line 236: void cblas_dsyrk(const CBLAS_ORDER order, const CBLAS_UPLO uplo, const CBLAS_TRANSPOSE trans, const int n, const int k, const double alpha, const double *A, const int lda, const double beta, double *C, const int ldc); -/
def cblas_dsyrk : Decl :=
  ⟨.void, "cblas_dsyrk", [cval .order "order", cval .uplo "uplo", cval .transpose "trans", cval .int "n", cval .int "k", cval .double "alpha", cptr .double "A", cval .int "lda", cval .double "beta", mptr .double "C", cval .int "ldc"]⟩

/-- Line 237: void cblas_csyrk(const CBLAS_ORDER order, const CBLAS_UPLO uplo, const CBLAS_TRANSPOSE trans, const int n, const int k, const void *alpha, const void *A, const int lda, const void *beta, void *C, const int ldc); -/
def cblas_csyrk : Decl :=
  ⟨.void, "cblas_csyrk", [cval .order "order", cval .uplo "uplo", cval .transpose "trans", cval .int "n", cval .int "k", cptr .void "alpha", cptr .void "A", cval .int "lda", cptr .void "beta", mptr .void "C", cval .int "ldc"]⟩

/-- Line 238: void cblas_zsyrk(const CBLAS_ORDER order, const CBLAS_UPLO uplo, const CBLAS_TRANSPOSE trans, const int n, const int k, const void *alpha, const void *A, const int lda, const void *beta, void *C, const int ldc); -/
def cblas_zsyrk : Decl :=
  ⟨.void, "cblas_zsyrk", [cval .order "order", cval .uplo "uplo", cval .transpose "trans", cval .int "n", cval .int "k", cptr .void "alpha", cptr .void "A", cval .int "lda", cptr .void "beta", mptr .void "C", cval .int "ldc"]⟩

/-- The entry points declared under the header comment "Level 1", in source order. -/
def level1 : List Decl :=
  [cblas_sasum, cblas_dasum, cblas_scasum, cblas_dzasum, cblas_saxpy, cblas_daxpy,
   cblas_caxpy, cblas_zaxpy, cblas_scopy, cblas_dcopy, cblas_ccopy, cblas_zcopy, cblas_sdot,
   cblas_ddot, cblas_cdotc, cblas_zdotc, cblas_cdotc_sub, cblas_zdotc_sub, cblas_cdotu,
   cblas_zdotu, cblas_cdotu_sub, cblas_zdotu_sub, cblas_snrm2, cblas_dnrm2, cblas_scnrm2,
   cblas_dznrm2, cblas_srot, cblas_drot, cblas_csrot, cblas_zdrot, cblas_srotg, cblas_drotg,
   cblas_crotg, cblas_zrotg, cblas_srotm, cblas_drotm, cblas_srotmg, cblas_drotmg,
   cblas_sscal, cblas_dscal, cblas_cscal, cblas_zscal, cblas_csscal, cblas_zdscal,
   cblas_sswap, cblas_dswap, cblas_cswap, cblas_zswap, cblas_isamax, cblas_idamax,
   cblas_icamax, cblas_izamax, cblas_isamin, cblas_idamin, cblas_icamin, cblas_izamin]

/-- The entry points declared under the header comment "Level 2", in source order. -/
def level2 : List Decl :=
  [cblas_sgbmv, cblas_dgbmv, cblas_cgbmv, cblas_zgbmv, cblas_sgemv, cblas_dgemv, cblas_cgemv,
   cblas_zgemv, cblas_sger, cblas_dger, cblas_cgerc, cblas_zgerc, cblas_cgeru, cblas_zgeru,
   cblas_chbmv, cblas_zhbmv, cblas_chemv, cblas_zhemv, cblas_cher, cblas_zher, cblas_cher2,
   cblas_zher2, cblas_chpmv, cblas_zhpmv, cblas_chpr, cblas_zhpr, cblas_chpr2, cblas_zhpr2,
   cblas_ssbmv, cblas_dsbmv, cblas_sspmv, cblas_dspmv, cblas_sspr, cblas_dspr, cblas_sspr2,
   cblas_dspr2, cblas_ssymv, cblas_dsymv, cblas_ssyr, cblas_dsyr, cblas_ssyr2, cblas_dsyr2,
   cblas_stbmv, cblas_dtbmv, cblas_ctbmv, cblas_ztbmv, cblas_stbsv, cblas_dtbsv, cblas_ctbsv,
   cblas_ztbsv, cblas_stpmv, cblas_dtpmv, cblas_ctpmv, cblas_ztpmv, cblas_stpsv, cblas_dtpsv,
   cblas_ctpsv, cblas_ztpsv, cblas_strmv, cblas_dtrmv, cblas_ctrmv, cblas_ztrmv, cblas_strsv,
   cblas_dtrsv, cblas_ctrsv, cblas_ztrsv]

/-- The entry points declared under the header comment "Level 3", in source order. -/
def level3 : List Decl :=
  [cblas_sgemm, cblas_dgemm, cblas_cgemm, cblas_zgemm, cblas_chemm, cblas_zhemm, cblas_cherk,
   cblas_zherk, cblas_cher2k, cblas_zher2k, cblas_ssymm, cblas_dsymm, cblas_csymm,
   cblas_zsymm, cblas_ssyrk, cblas_dsyrk, cblas_csyrk, cblas_zsyrk]

end Sig

/-- Every entry point of the header, in source order. -/
def entryPoints : List Decl := Sig.level1 ++ Sig.level2 ++ Sig.level3

/-- Whether an entry point of the given name is declared in the header. -/
def declared (name : String) : Bool := entryPoints.any fun d => d.name == name

/-! ## Integer codes of the tag constants (lines 11-36) -/

/-- The enumerator values of `CBLAS_ORDER`. -/
def CBLAS_ORDER.toInt : CBLAS_ORDER → Int
  | .CblasRowMajor => 101
  | .CblasColMajor => 102

/-- The enumerator values of `CBLAS_TRANSPOSE`. -/
def CBLAS_TRANSPOSE.toInt : CBLAS_TRANSPOSE → Int
  | .CblasNoTrans => 111
  | .CblasTrans => 112
  | .CblasConjTrans => 113
  | .CblasConjNoTrans => 114

/-- The enumerator values of `CBLAS_UPLO`. -/
def CBLAS_UPLO.toInt : CBLAS_UPLO → Int
  | .CblasUpper => 121
  | .CblasLower => 122

/-- The enumerator values of `CBLAS_DIAG`. -/
def CBLAS_DIAG.toInt : CBLAS_DIAG → Int
  | .CblasNonUnit => 131
  | .CblasUnit => 132

/-- The enumerator values of `CBLAS_SIDE`. -/
def CBLAS_SIDE.toInt : CBLAS_SIDE → Int
  | .CblasLeft => 141
  | .CblasRight => 142

/-- The integers that are an enumerator of the given tag type; a C enum argument is an
integer, and these are its legal values.  Empty for a base type that is not a tag. -/
def CType.legalCodes : CType → List Int
  | .order => [CBLAS_ORDER.CblasRowMajor.toInt, CBLAS_ORDER.CblasColMajor.toInt]
  | .transpose =>
    [CBLAS_TRANSPOSE.CblasNoTrans.toInt, CBLAS_TRANSPOSE.CblasTrans.toInt,
     CBLAS_TRANSPOSE.CblasConjTrans.toInt, CBLAS_TRANSPOSE.CblasConjNoTrans.toInt]
  | .uplo => [CBLAS_UPLO.CblasUpper.toInt, CBLAS_UPLO.CblasLower.toInt]
  | .diag => [CBLAS_DIAG.CblasNonUnit.toInt, CBLAS_DIAG.CblasUnit.toInt]
  | .side => [CBLAS_SIDE.CblasLeft.toInt, CBLAS_SIDE.CblasRight.toInt]
  | _ => []

/-! ## Predicates on signatures -/

/-- The C native complex types `float _Complex` and `double _Complex`. -/
def CType.isNativeComplex : CType → Bool
  | .floatComplex => true
  | .doubleComplex => true
  | _ => false

/-- The five enumerated tag types. -/
def CType.isTag : CType → Bool
  | .order => true
  | .transpose => true
  | .uplo => true
  | .diag => true
  | .side => true
  | _ => false

/-- An opaque untyped buffer: `void *` or `const void *`. -/
def Param.isOpaqueBuffer (p : Param) : Bool := p.base == .void && p.isPtr

/-- A native complex type occurs in the signature, as return type or in a parameter. -/
def Decl.usesNativeComplex (d : Decl) : Bool :=
  d.ret.isNativeComplex || d.params.any fun p => p.base.isNativeComplex

/-- Whether the entry point works on complex data, read off its name: the domain code is
the letter after `cblas_` (after the `i` of the index routines), `c` and `z` being the two
complex domains; `scasum`, `scnrm2`, `dzasum`, `dznrm2` are the real-valued reductions of
a complex vector. -/
def Decl.isComplex (d : Decl) : Bool :=
  match d.name.data.drop 6 with
  | 'c' :: _ => true
  | 'z' :: _ => true
  | 'i' :: 'c' :: _ => true
  | 'i' :: 'z' :: _ => true
  | _ => d.name ∈ ["cblas_scasum", "cblas_scnrm2", "cblas_dzasum", "cblas_dznrm2"]

/-- The names under which the header passes a vector or matrix operand. -/
def operandNames : List String := ["x", "y", "A", "Ap", "B", "C"]

/-- The four entry points whose declared return type is a native complex type. -/
def complexReturning : List String :=
  ["cblas_cdotc", "cblas_zdotc", "cblas_cdotu", "cblas_zdotu"]

/-- The four numeric domain codes. -/
def allDomains : List String := ["s", "d", "c", "z"]

/-- The two complex domain codes. -/
def complexDomains : List String := ["c", "z"]

/-- The Level 3 operation families the specification names, each with the domains in
which the operation is defined. -/
def specLevel3Families : List (String × List String) :=
  [("gemm", allDomains), ("symm", allDomains), ("hemm", complexDomains),
   ("syrk", allDomains), ("herk", complexDomains), ("syr2k", allDomains),
   ("her2k", complexDomains), ("trsm", allDomains), ("trmm", allDomains)]

/-- The Level 3 families for which the header has declarations. -/
def declaredLevel3Families : List (String × List String) :=
  [("gemm", allDomains), ("symm", allDomains), ("hemm", complexDomains),
   ("syrk", allDomains), ("herk", complexDomains), ("her2k", complexDomains)]

/-- The entry point name `cblas_<domain><op>`. -/
def entryName (domain op : String) : String := "cblas_" ++ domain ++ op

/-- The pointer parameters that are not const-qualified: what the callee may write
through. -/
def Decl.mutablePointers (d : Decl) : List Param :=
  d.params.filter fun p => p.isPtr && !p.isConst

/-- The names of the in-place output operands of Level 2 and Level 3. -/
def outputNames : List String := ["y", "x", "A", "Ap", "C"]

/-- The place of a tag type in the order layout, side, uplo, transpose, diag. -/
def CType.tagRank : CType → Option Nat
  | .order => some 0
  | .side => some 1
  | .uplo => some 2
  | .transpose => some 3
  | .diag => some 4
  | _ => none

/-- The ranks of the tag parameters, in parameter order. -/
def Decl.tagRanks (d : Decl) : List Nat := d.params.filterMap fun p => p.base.tagRank

/-- The tag parameters that come before the first parameter that is not a tag. -/
def Decl.leadingTags (d : Decl) : List Param := d.params.takeWhile fun p => p.base.isTag

/-- All tag parameters, wherever they stand. -/
def Decl.tags (d : Decl) : List Param := d.params.filter fun p => p.base.isTag

/-- Two consecutive tags respect the order side, uplo, transpose(s), diag after layout:
strictly increasing rank, except that a transpose may follow a transpose. -/
def tagStep (a b : Nat) : Bool := decide (a < b) || (a == 3 && b == 3)

/-- The tag ranks follow the order layout, side, uplo, transpose(s), diag. -/
def tagsOrdered : List Nat → Bool
  | a :: b :: rest => tagStep a b && tagsOrdered (b :: rest)
  | _ => true

/-- The parameter names of the Level 1 shape `(n, [alpha,] x, incx[, y, incy][, others])`. -/
def shapeNames : List String := ["n", "alpha", "x", "incx", "y", "incy"]

/-- A trailing parameter of a Level 1 routine: none of the shape's own names, and not an
integer. -/
def Param.isTrailing (p : Param) : Bool := !(p.name ∈ shapeNames) && !(p.base == .int)

/-- Drops a leading parameter named `alpha`, if there is one. -/
def dropAlpha : List Param → List Param
  | p :: ps => if p.name == "alpha" then ps else p :: ps
  | [] => []

/-- The part `[y, incy][, others]` of the Level 1 shape. -/
def tailShape : List Param → Bool
  | py :: pincy :: others =>
    if py.name == "y" then py.isPtr && pincy == cval .int "incy" && others.all Param.isTrailing
    else (py :: pincy :: others).all Param.isTrailing
  | others => others.all Param.isTrailing

/-- The Level 1 shape `(n, [alpha,] x, incx[, y, incy][, others])`: the first parameter is
`const int n`, then an optional `alpha`, then a pointer `x` and `const int incx`. -/
def Decl.level1Shape (d : Decl) : Bool :=
  match d.params with
  | pn :: ps =>
    pn == cval .int "n" &&
    match dropAlpha ps with
    | px :: pincx :: rest =>
      px.name == "x" && px.isPtr && pincx == cval .int "incx" && tailShape rest
    | _ => false
  | [] => false

/-- The rotation-construction routines `rotg` and `rotmg`. -/
def rotationConstructors : List String :=
  ["cblas_srotg", "cblas_drotg", "cblas_crotg", "cblas_zrotg", "cblas_srotmg", "cblas_drotmg"]

/-! ## Validation and dispatch (specification §4.5)

The header only declares the entry points; the code that validates a call is not part of
the sources under study and is modelled from the specification. -/

/-- An actual argument as validation sees it: the integer value of an `int` or enum
argument, or anything else (a scalar or a buffer). -/
inductive Arg
  | int (v : Int)
  | other
  deriving DecidableEq, Repr

/-- The parameter names of dimensions. -/
def dimensionNames : List String := ["m", "n", "k", "kl", "ku"]

/-- The parameter names of leading dimensions. -/
def leadingDimensionNames : List String := ["lda", "ldb", "ldc"]

/-- Modelled from the spec: the per-argument legality test of Validation & Dispatch
(§4.5), which is not under src/: "dimensions non-negative; leading dimensions large
enough for the declared shape and layout; enumerated tags hold a legal value".  The least
legal leading dimension of each routine is the parameter `ldMin`. -/
def argLegal (ldMin : Decl → List Arg → String → Int) (d : Decl) (args : List Arg)
    (p : Param) : Arg → Bool
  | .other => true
  | .int v =>
    if p.base.isTag then decide (v ∈ p.base.legalCodes)
    else if p.base == .int && !p.isPtr then
      if p.name ∈ dimensionNames then decide (0 ≤ v)
      else if p.name ∈ leadingDimensionNames then decide (ldMin d args p.name ≤ v)
      else true
    else true

/-- Modelled from the spec: the "conventional first-to-last scan order" of §4.5, which is
not under src/: the 1-based position of the first argument that fails `legal`, counting
from `pos`. -/
def scanArgs (legal : Param → Arg → Bool) : Nat → List Param → List Arg → Option Nat
  | pos, p :: ps, a :: as => if legal p a then scanArgs legal (pos + 1) ps as else some pos
  | _, _, _ => none

/-- The 1-based position of the first invalid argument of a call, if there is one. -/
def firstInvalid (ldMin : Decl → List Arg → String → Int) (d : Decl) (args : List Arg) :
    Option Nat :=
  scanArgs (argLegal ldMin d args) 1 d.params args

/-- What a call leaves behind: what the error sink received (routine identity and
argument position), and the output buffers. -/
structure Outcome (β : Type) where
  report : Option (String × Nat)
  outputs : β
  deriving DecidableEq, Repr

/-- Modelled from the spec: Validation & Dispatch (§4.5), which is not under src/: "On
violation ... report (routine identity, 1-based position of the first invalid argument)
to the error sink and return without touching any output"; a legal call runs the kernel on
the output buffers. -/
def dispatch {β : Type} (ldMin : Decl → List Arg → String → Int) (kernel : β → β)
    (d : Decl) (args : List Arg) (out : β) : Outcome β :=
  match firstInvalid ldMin d args with
  | some pos => ⟨some (d.name, pos), out⟩
  | none => ⟨none, kernel out⟩

/-- The 0-based argument index `i` holds an argument that fails validation. -/
def IllegalAt (ldMin : Decl → List Arg → String → Int) (d : Decl) (args : List Arg)
    (i : Nat) : Prop :=
  ∃ p a, d.params[i]? = some p ∧ args[i]? = some a ∧ argLegal ldMin d args p a = false

/-- A call of `cblas_dgemv` that is illegal only in `n`:
`(CblasRowMajor, CblasNoTrans, m = 2, n = -1, alpha, A, lda = 2, x, incx = 1, beta, y,
incy = 1)`. -/
def gemvNegativeN : List Arg :=
  [.int 101, .int 111, .int 2, .int (-1), .other, .other, .int 2, .other, .int 1, .other,
   .other, .int 1]

/-- A call of `cblas_daxpy` with negative `n`: `(n = -1, alpha, x, incx = 1, y, incy = 1)`. -/
def axpyNegativeN : List Arg := [.int (-1), .other, .other, .int 1, .other, .int 1]

/-- A stand-in for the least legal leading dimension in concrete calls. -/
def ldMinOne : Decl → List Arg → String → Int := fun _ _ _ => 1

/-! ## Kernels (specification §4.2, §4.3)

The kernels are not part of the sources under study and are modelled from the
specification.  A buffer is a function from offsets (in elements from the base address) to
scalars. -/

/-- Modelled from the spec: the Scalar Domain component (§2), which is not under src/:
a numeric domain with its arithmetic primitives.  No law is assumed of the primitives, so
the domain may hold NaNs, infinities and signed zeros; `isZero` and `isOne` are the exact
comparisons with zero and one, which no scalar passes both. -/
structure ScalarDomain (α : Type) where
  zero : α
  add : α → α → α
  neg : α → α
  mul : α → α → α
  conj : α → α
  isZero : α → Bool
  isOne : α → Bool
  zero_not_one : ∀ a, isZero a = true → isOne a = false

/-- Modelled from the spec: a complex scalar is a two-element buffer (real, imaginary)
(§6); the complex domain over a real domain. -/
def ScalarDomain.complex {α : Type} (S : ScalarDomain α) : ScalarDomain (α × α) where
  zero := (S.zero, S.zero)
  add a b := (S.add a.1 b.1, S.add a.2 b.2)
  neg a := (S.neg a.1, S.neg a.2)
  mul a b := (S.add (S.mul a.1 b.1) (S.neg (S.mul a.2 b.2)),
              S.add (S.mul a.1 b.2) (S.mul a.2 b.1))
  conj a := (a.1, S.neg a.2)
  isZero a := S.isZero a.1 && S.isZero a.2
  isOne a := S.isOne a.1 && S.isZero a.2
  zero_not_one a h := by
    have h1 : S.isZero a.1 = true := by
      cases h1 : S.isZero a.1
      · simp [h1] at h
      · rfl
    simp [S.zero_not_one a.1 h1]

/-- Exact arithmetic in a commutative ring as a scalar domain. -/
def ScalarDomain.ofRing (R : Type) [CommRing R] [Nontrivial R] [DecidableEq R] :
    ScalarDomain R where
  zero := 0
  add a b := a + b
  neg a := -a
  mul a b := a * b
  conj a := a
  isZero a := decide (a = 0)
  isOne a := decide (a = 1)
  zero_not_one a h := by
    have h0 : a = 0 := of_decide_eq_true h
    simp [h0]

/-- A small domain with a NaN (`none`) that absorbs every operation, as IEEE arithmetic
has; used to exercise the kernels where `0 * x + y` is not `y`. -/
def nanInt : ScalarDomain (Option Int) where
  zero := some 0
  add a b := a.bind fun u => b.map fun v => u + v
  neg a := a.map fun u => -u
  mul a b := a.bind fun u => b.map fun v => u * v
  conj a := a
  isZero a := a == some 0
  isOne a := a == some 1
  zero_not_one a h := by
    have h0 : a = some 0 := by simpa using h
    subst h0
    rfl

/-- Modelled from the spec: Vector View (§3), which is not under src/: "a logical length
and a stride (elements between consecutive entries, possibly negative to support reverse
traversal)".  The offset of logical element `i` of a vector of length `len`. -/
def vecOffset (len : Nat) (inc : Int) (i : Nat) : Nat :=
  if 0 ≤ inc then i * inc.natAbs else (len - 1 - i) * inc.natAbs

/-- Modelled from the spec: Dense Matrix View (§3) and Addressing Model (§4.1), which are
not under src/: the offset of logical element `(i, j)` under a layout tag and a leading
dimension. -/
def matOffset (order : CBLAS_ORDER) (lda : Nat) (i j : Nat) : Nat :=
  match order with
  | .CblasRowMajor => i * lda + j
  | .CblasColMajor => i + j * lda

/-- The element-wise loop of `axpy`: `y[i] ← alpha * x[i] + y[i]` for `i = 0 .. n-1`. -/
def axpyLoop {α : Type} (S : ScalarDomain α) (n : Nat) (alpha : α) (x : Nat → α)
    (incx : Int) (y : Nat → α) (incy : Int) : Nat → α :=
  (List.range n).foldl
    (fun acc i =>
      Function.update acc (vecOffset n incy i)
        (S.add (S.mul alpha (x (vecOffset n incx i))) (acc (vecOffset n incy i))))
    y

/-- Modelled from the spec: the `axpy` kernel (§4.2), which is not under src/:
"y ← αx + y, element-wise, skipped entirely (no-op) when α is exactly zero".  The
parameters are those of lines 49-52; the result is the buffer `y` after the call. -/
def axpy {α : Type} (S : ScalarDomain α) (n : Int) (alpha : α) (x : Nat → α) (incx : Int)
    (y : Nat → α) (incy : Int) : Nat → α :=
  if S.isZero alpha then y else axpyLoop S n.toNat alpha x incx y incy

/-- The accumulation `Σ_{j < n} f j * g j`, summed in increasing `j`. -/
def dotLoop {α : Type} (S : ScalarDomain α) (n : Nat) (f g : Nat → α) : α :=
  (List.range n).foldl (fun acc j => S.add acc (S.mul (f j) (g j))) S.zero

/-- Element `(i, j)` of `op(A)` for an `m × n` matrix `A` stored at `A` with leading
dimension `lda`: `A` itself, its transpose, or their conjugates. -/
def opElem {α : Type} (S : ScalarDomain α) (order : CBLAS_ORDER) (transA : CBLAS_TRANSPOSE)
    (A : Nat → α) (lda : Nat) (i j : Nat) : α :=
  match transA with
  | .CblasNoTrans => A (matOffset order lda i j)
  | .CblasTrans => A (matOffset order lda j i)
  | .CblasConjTrans => S.conj (A (matOffset order lda j i))
  | .CblasConjNoTrans => S.conj (A (matOffset order lda i j))

/-- Whether `op(A)` has the shape of `A` (no transposition). -/
def CBLAS_TRANSPOSE.keepsShape : CBLAS_TRANSPOSE → Bool
  | .CblasNoTrans => true
  | .CblasConjNoTrans => true
  | _ => false

/-- The length of `y` in `gemv`: `op(A)·x` has `m` entries when `op` keeps the shape of
the `m × n` matrix `A`, and `n` otherwise. -/
def gemvLenY (transA : CBLAS_TRANSPOSE) (m n : Int) : Nat :=
  if transA.keepsShape then m.toNat else n.toNat

/-- The length of `x` in `gemv`. -/
def gemvLenX (transA : CBLAS_TRANSPOSE) (m n : Int) : Nat :=
  if transA.keepsShape then n.toNat else m.toNat

/-- Entry `i` of `α·op(A)·x`. -/
def gemvTerm {α : Type} (S : ScalarDomain α) (order : CBLAS_ORDER)
    (transA : CBLAS_TRANSPOSE) (m n : Int) (alpha : α) (A : Nat → α) (lda : Int)
    (x : Nat → α) (incx : Int) (i : Nat) : α :=
  S.mul alpha
    (dotLoop S (gemvLenX transA m n) (fun j => opElem S order transA A lda.toNat i j)
      (fun j => x (vecOffset (gemvLenX transA m n) incx j)))

/-- Modelled from the spec: the `gemv` kernel (§4.3), which is not under src/:
"y ← α·op(A)·x + β·y"; "β = 0 must not read the prior contents of y (treat as replace)";
"β = 1, α = 0 must leave y unchanged without reading A or x".  The parameters are those of
lines 126-129; the result is the buffer `y` after the call.  A `y` of length zero makes the
loop empty; an `x` of length zero makes each product the empty sum. -/
def gemv {α : Type} (S : ScalarDomain α) (order : CBLAS_ORDER) (transA : CBLAS_TRANSPOSE)
    (m n : Int) (alpha : α) (A : Nat → α) (lda : Int) (x : Nat → α) (incx : Int) (beta : α)
    (y : Nat → α) (incy : Int) : Nat → α :=
  if S.isZero alpha && S.isOne beta then y
  else
    (List.range (gemvLenY transA m n)).foldl
      (fun acc i =>
        Function.update acc (vecOffset (gemvLenY transA m n) incy i)
          (if S.isZero beta then gemvTerm S order transA m n alpha A lda x incx i
           else S.add (gemvTerm S order transA m n alpha A lda x incx i)
             (S.mul beta (acc (vecOffset (gemvLenY transA m n) incy i)))))
      y

/-- The buffer holding the given elements from offset 0 on, and `pad` beyond them. -/
def bufferOf {α : Type} (pad : α) (elems : List α) : Nat → α := fun k => elems.getD k pad

/-- The scenario of specification §8.8: row-major `A = [[1,2],[3,4]]`. -/
def scenarioA : Nat → Int := bufferOf 0 [1, 2, 3, 4]

/-- The scenario of specification §8.8: `x = [1,1]`. -/
def scenarioX : Nat → Int := bufferOf 0 [1, 1]

/-! ## Decoding a tag from its integer code (lines 11-36) -/

/-- The `CBLAS_ORDER` whose enumerator value is `v`, if there is one. -/
def CBLAS_ORDER.ofInt (v : Int) : Option CBLAS_ORDER :=
  if v = 101 then some .CblasRowMajor
  else if v = 102 then some .CblasColMajor
  else none

/-- The `CBLAS_TRANSPOSE` whose enumerator value is `v`, if there is one. -/
def CBLAS_TRANSPOSE.ofInt (v : Int) : Option CBLAS_TRANSPOSE :=
  if v = 111 then some .CblasNoTrans
  else if v = 112 then some .CblasTrans
  else if v = 113 then some .CblasConjTrans
  else if v = 114 then some .CblasConjNoTrans
  else none

/-- The `CBLAS_UPLO` whose enumerator value is `v`, if there is one. -/
def CBLAS_UPLO.ofInt (v : Int) : Option CBLAS_UPLO :=
  if v = 121 then some .CblasUpper
  else if v = 122 then some .CblasLower
  else none

/-- The `CBLAS_DIAG` whose enumerator value is `v`, if there is one. -/
def CBLAS_DIAG.ofInt (v : Int) : Option CBLAS_DIAG :=
  if v = 131 then some .CblasNonUnit
  else if v = 132 then some .CblasUnit
  else none

/-- The `CBLAS_SIDE` whose enumerator value is `v`, if there is one. -/
def CBLAS_SIDE.ofInt (v : Int) : Option CBLAS_SIDE :=
  if v = 141 then some .CblasLeft
  else if v = 142 then some .CblasRight
  else none

/-- The integer codes of all tag constants of the header, type by type in source order. -/
def allTagCodes : List Int :=
  CType.order.legalCodes ++ CType.transpose.legalCodes ++ CType.uplo.legalCodes ++
    CType.diag.legalCodes ++ CType.side.legalCodes

/-! ## Magnitude reductions (specification §4.2) -/

/-- The position of the leading binary digit of `n`, that is `⌊log₂ n⌋`, and 0 for
`n < 2`; the first argument bounds the number of halvings, and `n` itself is enough. -/
def floorLog2 : Nat → Nat → Nat
  | 0, _ => 0
  | k + 1, n => if n < 2 then 0 else floorLog2 k (n / 2) + 1

/-- Modelled from the spec: band validity of the Addressing Model (§4.1), which is not
under src/: "element (i, j) is valid only when max(0, j-ku) ≤ i ≤ min(rows-1, j+kl)". -/
def inBand (rows : Nat) (kl ku : Int) (i j : Nat) : Bool :=
  decide (max 0 ((j : Int) - ku) ≤ (i : Int)) &&
    decide ((i : Int) ≤ min ((rows : Int) - 1) ((j : Int) + kl))

/-- Modelled from the spec: the row of element `(i, j)` in the compact band buffer (§4.1),
which is not under src/: "the compact band buffer whose row index is ku + i - j". -/
def bandRow (ku : Int) (i j : Nat) : Int := ku + (i : Int) - (j : Int)

/-- Modelled from the spec: the offset of band element `(i, j)` (§4.1, §3), which is not
under src/.  Column-major: row `ku + i - j` of column `j` of the compact buffer, whose
columns are `lda` apart.  Row-major storage of a matrix is the column-major storage of its
transpose, as for the dense view, so the roles of `i`, `j` and of `kl`, `ku` are
exchanged. -/
def bandOffset (order : CBLAS_ORDER) (kl ku : Int) (lda : Nat) (i j : Nat) : Nat :=
  match order with
  | .CblasColMajor => (bandRow ku i j).toNat + j * lda
  | .CblasRowMajor => (bandRow kl j i).toNat + i * lda

/-- The position in `A` of entry `(r, c)` of `op(A)`. -/
def opIndex (transA : CBLAS_TRANSPOSE) (r c : Nat) : Nat × Nat :=
  if transA.keepsShape then (r, c) else (c, r)

/-- The conjugation that `op` applies to an element: none, or the domain's. -/
def opConj {α : Type} (S : ScalarDomain α) (transA : CBLAS_TRANSPOSE) (a : α) : α :=
  match transA with
  | .CblasNoTrans => a
  | .CblasTrans => a
  | .CblasConjTrans => S.conj a
  | .CblasConjNoTrans => S.conj a

/-- Entry `r` of `α·op(A)·x` for a band matrix: the products over the entries of row `r`
of `op(A)` that lie in the band, read from the compact buffer. -/
def gbmvTerm {α : Type} (S : ScalarDomain α) (order : CBLAS_ORDER)
    (transA : CBLAS_TRANSPOSE) (m n kl ku : Int) (alpha : α) (A : Nat → α) (lda : Int)
    (x : Nat → α) (incx : Int) (r : Nat) : α :=
  S.mul alpha
    ((List.range (gemvLenX transA m n)).foldl
      (fun acc c =>
        if inBand m.toNat kl ku (opIndex transA r c).1 (opIndex transA r c).2 then
          S.add acc
            (S.mul
              (opConj S transA
                (A (bandOffset order kl ku lda.toNat (opIndex transA r c).1
                  (opIndex transA r c).2)))
              (x (vecOffset (gemvLenX transA m n) incx c)))
        else acc)
      S.zero)

/-- Modelled from the spec: the `gbmv` kernel (§4.3, §4.1), which is not under src/:
"y ← α·op(A)·x + β·y" for a banded matrix with `kl` sub- and `ku` super-diagonals stored
compactly, with the rules of §4.3 for `β = 0` and for `β = 1, α = 0`.  The parameters are
those of lines 121-124; the result is the buffer `y` after the call. -/
def gbmv {α : Type} (S : ScalarDomain α) (order : CBLAS_ORDER) (transA : CBLAS_TRANSPOSE)
    (m n kl ku : Int) (alpha : α) (A : Nat → α) (lda : Int) (x : Nat → α) (incx : Int)
    (beta : α) (y : Nat → α) (incy : Int) : Nat → α :=
  if S.isZero alpha && S.isOne beta then y
  else
    (List.range (gemvLenY transA m n)).foldl
      (fun acc r =>
        Function.update acc (vecOffset (gemvLenY transA m n) incy r)
          (if S.isZero beta then gbmvTerm S order transA m n kl ku alpha A lda x incx r
           else S.add (gbmvTerm S order transA m n kl ku alpha A lda x incx r)
             (S.mul beta (acc (vecOffset (gemvLenY transA m n) incy r)))))
      y

/-- A tridiagonal 3×3 matrix `[[1,2,0],[3,4,5],[0,6,7]]` in column-major band storage
with `kl = ku = 1`, `lda = 3`; the two unused corners of the buffer hold `pad`. -/
def scenarioBand (pad : Int) : Nat → Int := bufferOf 0 [pad, 1, 3, 2, 4, 6, 5, 7, pad]

/-! # Theorems -/

set_option maxRecDepth 100000

/-! ## The declaration surface -/

/-- The header declares 56 Level 1, 66 Level 2 and 18 Level 3 entry points, under
pairwise distinct names. -/
theorem entryPoints_census :
    Sig.level1.length = 56 ∧ Sig.level2.length = 66 ∧ Sig.level3.length = 18 ∧
      (entryPoints.map fun d => d.name).Nodup := by
  decide

/-- C1, as stated, fails: `cblas_cdotc` is an entry point whose return type is the native
`float _Complex`, so not every entry point is free of native complex types. -/
theorem native_complex_return_declared :
    Sig.cblas_cdotc ∈ entryPoints ∧ Sig.cblas_cdotc.ret = CType.floatComplex ∧
      ¬ ∀ d ∈ entryPoints, d.usesNativeComplex = false := by
  decide

/-- C1 (amended): for every entry point, no parameter has a native complex type; `void`
occurs in parameters only as an opaque buffer `void *`; in the complex routines every
pointer parameter (vector, matrix or complex scalar) is such a buffer, except the real
cosine `c` of `crotg`/`zrotg`; the real routines take no `void *`; and a native complex
type is the return type of exactly `cblas_cdotc`, `cblas_zdotc`, `cblas_cdotu`,
`cblas_zdotu`, each of which has a `_sub` form declared beside it. -/
theorem complex_parameters_are_buffers (d : Decl) (hd : d ∈ entryPoints) :
    (∀ p ∈ d.params, p.base.isNativeComplex = false) ∧
    (∀ p ∈ d.params, p.base = CType.void → p.isPtr = true) ∧
    (d.isComplex = true → ∀ p ∈ d.params, p.isPtr = true →
      p.isOpaqueBuffer = true ∨ (p.name = "c" ∧ d.name ∈ ["cblas_crotg", "cblas_zrotg"])) ∧
    (d.isComplex = false → ∀ p ∈ d.params, p.isOpaqueBuffer = false) ∧
    (d.ret.isNativeComplex = true ↔ d.name ∈ complexReturning) ∧
    (d.name ∈ complexReturning → declared (d.name ++ "_sub") = true) :=
  (by decide : ∀ d ∈ entryPoints,
    (∀ p ∈ d.params, p.base.isNativeComplex = false) ∧
    (∀ p ∈ d.params, p.base = CType.void → p.isPtr = true) ∧
    (d.isComplex = true → ∀ p ∈ d.params, p.isPtr = true →
      p.isOpaqueBuffer = true ∨ (p.name = "c" ∧ d.name ∈ ["cblas_crotg", "cblas_zrotg"])) ∧
    (d.isComplex = false → ∀ p ∈ d.params, p.isOpaqueBuffer = false) ∧
    (d.ret.isNativeComplex = true ↔ d.name ∈ complexReturning) ∧
    (d.name ∈ complexReturning → declared (d.name ++ "_sub") = true)) d hd

/-- The amended C1 at `cblas_zgemv`, a complex routine with five `void *` parameters. -/
theorem complex_parameters_are_buffers_witness :
    Sig.cblas_zgemv ∈ entryPoints ∧
    Sig.cblas_zgemv.isComplex = true ∧
    (Sig.cblas_zgemv.params.filter Param.isOpaqueBuffer).length = 5 ∧
    (∀ p ∈ Sig.cblas_zgemv.params, p.isPtr = true →
      p.isOpaqueBuffer = true ∨
        (p.name = "c" ∧ Sig.cblas_zgemv.name ∈ ["cblas_crotg", "cblas_zrotg"])) :=
  ⟨by decide, by decide, by decide,
    (complex_parameters_are_buffers Sig.cblas_zgemv (by decide)).2.2.1 (by decide)⟩

/-- C2, as stated, fails: the header declares no `cblas_strsm` (nor any other `trsm`,
`trmm` or `syr2k`), so not every family the specification names has its entry points. -/
theorem level3_family_missing :
    declared "cblas_strsm" = false ∧
      ¬ ∀ f ∈ specLevel3Families, ∀ p ∈ f.2, declared (entryName p f.1) = true := by
  decide

/-- C2 (amended): for `gemm`, `symm`, `syrk` (domains s, d, c, z) and `hemm`, `herk`,
`her2k` (domains c, z) the header declares `cblas_<domain><op>` under "Level 3" for every
domain of the family, these are all the Level 3 declarations, and no `syr2k`, `trsm` or
`trmm` entry point is declared in any domain. -/
theorem level3_families_declared :
    (∀ f ∈ declaredLevel3Families, ∀ p ∈ f.2,
      ∃ d ∈ Sig.level3, d.name = entryName p f.1) ∧
    (∀ d ∈ Sig.level3, ∃ f ∈ declaredLevel3Families, ∃ p ∈ f.2, d.name = entryName p f.1) ∧
    (∀ op ∈ ["syr2k", "trsm", "trmm"], ∀ p ∈ allDomains,
      declared (entryName p op) = false) := by
  decide

/-- The amended C2 at `zher2k`: declared; and at `dtrmm`: not declared. -/
theorem level3_families_declared_witness :
    (("her2k", complexDomains) ∈ declaredLevel3Families ∧ "z" ∈ complexDomains ∧
      ∃ d ∈ Sig.level3, d.name = "cblas_zher2k") ∧
    ("trmm" ∈ ["syr2k", "trsm", "trmm"] ∧ "d" ∈ allDomains ∧
      declared "cblas_dtrmm" = false) :=
  ⟨⟨by decide, by decide,
      level3_families_declared.1 ("her2k", complexDomains) (by decide) "z" (by decide)⟩,
    ⟨by decide, by decide,
      level3_families_declared.2.2 "trmm" (by decide) "d" (by decide)⟩⟩

/-- C3: for each complex domain (c, z) and each variant (dotc, dotu) the header declares a
form `cblas_<domain><variant>` that returns the result as a (native complex) scalar and a
form `cblas_<domain><variant>_sub` that returns nothing and takes the same parameters
`(n, x, incx, y, incy)`, in the same order and with the same types, followed by one
trailing output pointer `void *ret`. -/
theorem dot_scalar_and_sub_forms (p v : String) (hp : p ∈ complexDomains)
    (hv : v ∈ ["dotc", "dotu"]) :
    ∃ f ∈ Sig.level1, ∃ g ∈ Sig.level1,
      f.name = entryName p v ∧ g.name = entryName p v ++ "_sub" ∧
      f.ret.isNativeComplex = true ∧ g.ret = CType.void ∧
      (f.params.map fun q => q.name) = ["n", "x", "incx", "y", "incy"] ∧
      g.params = f.params ++ [mptr CType.void "ret"] :=
  (by decide : ∀ p ∈ complexDomains, ∀ v ∈ ["dotc", "dotu"],
    ∃ f ∈ Sig.level1, ∃ g ∈ Sig.level1,
      f.name = entryName p v ∧ g.name = entryName p v ++ "_sub" ∧
      f.ret.isNativeComplex = true ∧ g.ret = CType.void ∧
      (f.params.map fun q => q.name) = ["n", "x", "incx", "y", "incy"] ∧
      g.params = f.params ++ [mptr CType.void "ret"]) p hp v hv

/-- C3 at the double-precision complex conjugated dot product. -/
theorem dot_scalar_and_sub_forms_witness :
    "z" ∈ complexDomains ∧ "dotc" ∈ ["dotc", "dotu"] ∧
    ∃ f ∈ Sig.level1, ∃ g ∈ Sig.level1,
      f.name = entryName "z" "dotc" ∧ g.name = entryName "z" "dotc" ++ "_sub" ∧
      f.ret.isNativeComplex = true ∧ g.ret = CType.void ∧
      (f.params.map fun q => q.name) = ["n", "x", "incx", "y", "incy"] ∧
      g.params = f.params ++ [mptr CType.void "ret"] :=
  ⟨by decide, by decide, dot_scalar_and_sub_forms "z" "dotc" (by decide) (by decide)⟩

/-- C4: every Level 2 and Level 3 entry point has exactly one pointer parameter that is
not const-qualified, named `y`, `x`, `A`, `Ap` or `C`; every other parameter (tag,
dimension, stride, scalar, input operand) is const. -/
theorem single_mutable_operand (d : Decl) (hd : d ∈ Sig.level2 ++ Sig.level3) :
    d.mutablePointers.length = 1 ∧
    (∀ p ∈ d.mutablePointers, p.name ∈ outputNames) ∧
    (∀ p ∈ d.params, p ∉ d.mutablePointers → p.isConst = true) :=
  (by decide : ∀ d ∈ Sig.level2 ++ Sig.level3,
    d.mutablePointers.length = 1 ∧
    (∀ p ∈ d.mutablePointers, p.name ∈ outputNames) ∧
    (∀ p ∈ d.params, p ∉ d.mutablePointers → p.isConst = true)) d hd

/-- C4 at `cblas_dtrsv`, whose only pointer to non-const is `double *x`. -/
theorem single_mutable_operand_witness :
    Sig.cblas_dtrsv ∈ Sig.level2 ++ Sig.level3 ∧
    Sig.cblas_dtrsv.mutablePointers = [mptr CType.double "x"] ∧
    (Sig.cblas_dtrsv.mutablePointers.length = 1 ∧
      (∀ p ∈ Sig.cblas_dtrsv.mutablePointers, p.name ∈ outputNames) ∧
      (∀ p ∈ Sig.cblas_dtrsv.params, p ∉ Sig.cblas_dtrsv.mutablePointers →
        p.isConst = true)) :=
  ⟨by decide, by decide, single_mutable_operand Sig.cblas_dtrsv (by decide)⟩

/-- C5: the five tag types have exactly the listed values and no others: layout 2
(row-major, column-major), transpose 4 (no-transpose, transpose, conjugate-transpose,
conjugate-no-transpose), triangular part 2 (upper, lower), diagonal 2 (non-unit, unit),
side 2 (left, right); and `CBLAS_LAYOUT` is the type `CBLAS_ORDER`. -/
theorem tag_types_legal_values :
    ((∀ t : CBLAS_ORDER, t = .CblasRowMajor ∨ t = .CblasColMajor) ∧
      Fintype.card CBLAS_ORDER = 2 ∧ CType.order.legalCodes = [101, 102]) ∧
    ((∀ t : CBLAS_TRANSPOSE, t = .CblasNoTrans ∨ t = .CblasTrans ∨ t = .CblasConjTrans ∨
        t = .CblasConjNoTrans) ∧
      Fintype.card CBLAS_TRANSPOSE = 4 ∧ CType.transpose.legalCodes = [111, 112, 113, 114]) ∧
    ((∀ t : CBLAS_UPLO, t = .CblasUpper ∨ t = .CblasLower) ∧
      Fintype.card CBLAS_UPLO = 2 ∧ CType.uplo.legalCodes = [121, 122]) ∧
    ((∀ t : CBLAS_DIAG, t = .CblasNonUnit ∨ t = .CblasUnit) ∧
      Fintype.card CBLAS_DIAG = 2 ∧ CType.diag.legalCodes = [131, 132]) ∧
    ((∀ t : CBLAS_SIDE, t = .CblasLeft ∨ t = .CblasRight) ∧
      Fintype.card CBLAS_SIDE = 2 ∧ CType.side.legalCodes = [141, 142]) ∧
    CBLAS_LAYOUT = CBLAS_ORDER := by
  refine ⟨⟨?_, rfl, rfl⟩, ⟨?_, rfl, rfl⟩, ⟨?_, rfl, rfl⟩, ⟨?_, rfl, rfl⟩, ⟨?_, rfl, rfl⟩, rfl⟩ <;>
    intro t <;> cases t <;> simp

/-- C6: every Level 2 and Level 3 entry point returns void, takes the layout tag
(`const CBLAS_ORDER order`) as its first parameter, takes all its tags before any other
parameter, and takes them in the order layout, side, uplo, transpose(s), diag; every tag
is passed by value. -/
theorem tags_lead_in_order (d : Decl) (hd : d ∈ Sig.level2 ++ Sig.level3) :
    d.ret = CType.void ∧
    d.params.head? = some (cval CType.order "order") ∧
    d.leadingTags = d.tags ∧
    tagsOrdered d.tagRanks = true ∧
    (∀ p ∈ d.tags, p.isPtr = false) :=
  (by decide : ∀ d ∈ Sig.level2 ++ Sig.level3,
    d.ret = CType.void ∧
    d.params.head? = some (cval CType.order "order") ∧
    d.leadingTags = d.tags ∧
    tagsOrdered d.tagRanks = true ∧
    (∀ p ∈ d.tags, p.isPtr = false)) d hd

/-- C6 at `cblas_chemm`, whose tags are layout, side, uplo. -/
theorem tags_lead_in_order_witness :
    Sig.cblas_chemm ∈ Sig.level2 ++ Sig.level3 ∧
    Sig.cblas_chemm.tagRanks = [0, 1, 2] ∧
    (Sig.cblas_chemm.ret = CType.void ∧
      Sig.cblas_chemm.params.head? = some (cval CType.order "order") ∧
      Sig.cblas_chemm.leadingTags = Sig.cblas_chemm.tags ∧
      tagsOrdered Sig.cblas_chemm.tagRanks = true ∧
      (∀ p ∈ Sig.cblas_chemm.tags, p.isPtr = false)) :=
  ⟨by decide, by decide, tags_lead_in_order Sig.cblas_chemm (by decide)⟩

/-- C7, as stated, fails: `cblas_srotg(float *a, float *b, float *c, float *s)` is a
Level 1 entry point without the Level 1 shape; its first parameter is not `n`. -/
theorem rotg_breaks_level1_shape :
    Sig.cblas_srotg ∈ Sig.level1 ∧
    (Sig.cblas_srotg.params.map fun p => p.name) = ["a", "b", "c", "s"] ∧
    Sig.cblas_srotg.level1Shape = false ∧
    ¬ ∀ d ∈ Sig.level1, d.level1Shape = true := by
  decide

/-- C7 (amended): every Level 1 entry point other than the rotation constructors
(`rotg` in s, d, c, z and `rotmg` in s, d) has the shape
`(n, [alpha,] x, incx[, y, incy][, others])`: its first parameter is `const int n`, then
an optional `alpha`, then a pointer `x` and `const int incx`; the six rotation
constructors take no integer parameter at all (no `n`, no increment). -/
theorem level1_shape_except_rotation_constructors (d : Decl) (hd : d ∈ Sig.level1) :
    (d.name ∉ rotationConstructors → d.level1Shape = true) ∧
    (d.name ∈ rotationConstructors →
      d.level1Shape = false ∧ ∀ p ∈ d.params, p.base ≠ CType.int) :=
  (by decide : ∀ d ∈ Sig.level1,
    (d.name ∉ rotationConstructors → d.level1Shape = true) ∧
    (d.name ∈ rotationConstructors →
      d.level1Shape = false ∧ ∀ p ∈ d.params, p.base ≠ CType.int)) d hd

/-- The amended C7 at `cblas_caxpy(n, alpha, x, incx, y, incy)`. -/
theorem level1_shape_except_rotation_constructors_witness :
    Sig.cblas_caxpy ∈ Sig.level1 ∧ Sig.cblas_caxpy.name ∉ rotationConstructors ∧
      Sig.cblas_caxpy.level1Shape = true :=
  ⟨by decide, by decide,
    (level1_shape_except_rotation_constructors Sig.cblas_caxpy (by decide)).1 (by decide)⟩

/-! ## Validation and dispatch -/

/-- The scan returns the position of the first argument that fails the test. -/
theorem scanArgs_first (legal : Param → Arg → Bool) :
    ∀ (ps : List Param) (as : List Arg) (pos i : Nat),
      (∃ p a, ps[i]? = some p ∧ as[i]? = some a ∧ legal p a = false) →
      (∀ j < i, ¬ ∃ q b, ps[j]? = some q ∧ as[j]? = some b ∧ legal q b = false) →
      scanArgs legal pos ps as = some (pos + i)
  | [], _, _, _, ⟨_, _, hp, _, _⟩, _ => by simp at hp
  | _ :: _, [], _, _, ⟨_, _, _, ha, _⟩, _ => by simp at ha
  | p0 :: ps, a0 :: as, pos, 0, ⟨p, a, hp, ha, hbad⟩, _ => by
    simp only [List.getElem?_cons_zero, Option.some.injEq] at hp ha
    subst hp ha
    simp [scanArgs, hbad]
  | p0 :: ps, a0 :: as, pos, i + 1, ⟨p, a, hp, ha, hbad⟩, hfirst => by
    have h0 : legal p0 a0 = true := by
      cases h : legal p0 a0
      · exact absurd ⟨p0, a0, by simp, by simp, h⟩ (hfirst 0 (Nat.succ_pos i))
      · rfl
    have ih := scanArgs_first legal ps as (pos + 1) i
      ⟨p, a, by simpa using hp, by simpa using ha, hbad⟩
      (fun j hj ⟨q, b, hq, hb, hqb⟩ =>
        hfirst (j + 1) (by omega) ⟨q, b, by simpa using hq, by simpa using hb, hqb⟩)
    simp only [scanArgs, h0, if_true, ih]
    congr 1
    omega

/-- A call whose first illegal argument has index `i` reports position `i + 1` and leaves
the outputs as they were. -/
theorem dispatch_of_first_illegal {β : Type} (ldMin : Decl → List Arg → String → Int)
    (kernel : β → β) (d : Decl) (args : List Arg) (out : β) (i : Nat)
    (hbad : IllegalAt ldMin d args i) (hfirst : ∀ j < i, ¬ IllegalAt ldMin d args j) :
    dispatch ldMin kernel d args out = ⟨some (d.name, i + 1), out⟩ := by
  have h := scanArgs_first (argLegal ldMin d args) d.params args 1 i hbad hfirst
  simp [dispatch, firstInvalid, h, Nat.add_comm]

/-- A negative `n` is an illegal argument. -/
theorem negative_n_illegal (ldMin : Decl → List Arg → String → Int) (d : Decl)
    (args : List Arg) (i : Nat) (v : Int) (hp : d.params[i]? = some (cval CType.int "n"))
    (ha : args[i]? = some (Arg.int v)) (hv : v < 0) : IllegalAt ldMin d args i := by
  refine ⟨_, _, hp, ha, ?_⟩
  simp [argLegal, cval, CType.isTag, dimensionNames]
  exact hv

/-- C9, as stated, fails: `n` is the fourth parameter of `cblas_dgemv`, so under the
first-invalid-argument rule the call `(CblasRowMajor, CblasNoTrans, 2, -1, ...)`, illegal
only in `n`, reports position 4 and not position 1. -/
theorem negative_n_reported_at_position_four :
    Sig.cblas_dgemv.params[3]? = some (cval CType.int "n") ∧
    gemvNegativeN[3]? = some (Arg.int (-1)) ∧
    dispatch ldMinOne id Sig.cblas_dgemv gemvNegativeN ([5, 6] : List Int)
      = ⟨some ("cblas_dgemv", 4), [5, 6]⟩ ∧
    (dispatch ldMinOne id Sig.cblas_dgemv gemvNegativeN ([5, 6] : List Int)).report
      ≠ some ("cblas_dgemv", 1) := by
  decide

/-- C9 (amended): a call with an illegal argument (negative dimension, too-small leading
dimension, invalid tag value) reports the routine and the 1-based position of the first
invalid argument in first-to-last order, whatever the kernel and the buffers (so the same
on every repetition), and leaves the output buffers unchanged; a negative `n` is an
illegal argument, and its position is 1 in every Level 1 entry point that takes `n` (all
but the rotation constructors), while in Level 2 and Level 3 `n` is never among the first
two parameters (in `cblas_dgemv` it is the fourth). -/
theorem illegal_call_reports_first_invalid :
    (∀ (β : Type) (ldMin : Decl → List Arg → String → Int) (kernel : β → β) (d : Decl)
        (args : List Arg) (out : β) (i : Nat),
      IllegalAt ldMin d args i → (∀ j < i, ¬ IllegalAt ldMin d args j) →
        dispatch ldMin kernel d args out = ⟨some (d.name, i + 1), out⟩) ∧
    (∀ (ldMin : Decl → List Arg → String → Int) (d : Decl) (args : List Arg) (i : Nat)
        (v : Int),
      d.params[i]? = some (cval CType.int "n") → args[i]? = some (Arg.int v) → v < 0 →
        IllegalAt ldMin d args i) ∧
    (∀ d ∈ Sig.level1, d.name ∉ rotationConstructors →
      d.params[0]? = some (cval CType.int "n")) ∧
    (∀ d ∈ Sig.level2 ++ Sig.level3, cval CType.int "n" ∉ d.params.take 2) ∧
    Sig.cblas_dgemv.params[3]? = some (cval CType.int "n") :=
  ⟨fun _ ldMin kernel d args out i hbad hfirst =>
      dispatch_of_first_illegal ldMin kernel d args out i hbad hfirst,
    negative_n_illegal, by decide, by decide, by decide⟩

/-- The amended C9 at `cblas_daxpy(n = -1, ...)`: position 1 is reported and the output
buffer keeps its contents. -/
theorem illegal_call_reports_first_invalid_witness :
    IllegalAt ldMinOne Sig.cblas_daxpy axpyNegativeN 0 ∧
    (∀ j < 0, ¬ IllegalAt ldMinOne Sig.cblas_daxpy axpyNegativeN j) ∧
    dispatch ldMinOne (fun _ => [0, 0]) Sig.cblas_daxpy axpyNegativeN ([5, 6] : List Int)
      = ⟨some ("cblas_daxpy", 1), [5, 6]⟩ :=
  ⟨⟨cval CType.int "n", Arg.int (-1), rfl, rfl, by decide⟩,
    fun j hj => absurd hj (Nat.not_lt_zero j),
    illegal_call_reports_first_invalid.1 (List Int) ldMinOne (fun _ => [0, 0])
      Sig.cblas_daxpy axpyNegativeN [5, 6] 0
      ⟨cval CType.int "n", Arg.int (-1), rfl, rfl, by decide⟩
      (fun j hj => absurd hj (Nat.not_lt_zero j))⟩

/-! ## Kernels -/

/-- Without the test for a zero `alpha` the loop of `axpy` would not leave `y` alone: a
NaN in `x` reaches `y` through `0 * NaN + y`. -/
theorem axpyLoop_changes_y :
    axpyLoop nanInt 1 (some 0) (bufferOf none []) 1 (bufferOf (some 9) [some 5]) 1 0 = none := by
  decide

/-- C8: `axpy` with `alpha` exactly zero is a no-op, for every `n`, `x`, `incx`, `y`,
`incy`: the buffer `y` after the call is the buffer before the call, in the real domains
(`saxpy`, `daxpy`) and in the complex domains over them (`caxpy`, `zaxpy`), where zero
means both components are zero. -/
theorem axpy_zero_alpha_noop {α : Type} (S : ScalarDomain α) (n incx incy : Int) :
    (∀ (alpha : α) (x y : Nat → α), S.isZero alpha = true →
      axpy S n alpha x incx y incy = y) ∧
    (∀ (alpha : α × α) (x y : Nat → α × α),
      S.isZero alpha.1 = true → S.isZero alpha.2 = true →
        axpy S.complex n alpha x incx y incy = y) := by
  constructor
  · intro alpha x y h
    simp [axpy, h]
  · intro alpha x y h1 h2
    simp [axpy, ScalarDomain.complex, h1, h2]

/-- C8 in a domain with NaN: `alpha = 0`, `x` all NaN, and `y` is left as it was. -/
theorem axpy_zero_alpha_noop_witness :
    nanInt.isZero (some 0) = true ∧
    axpy nanInt 2 (some 0) (bufferOf none []) 1 (bufferOf (some 9) [some 5, some 6]) 1
      = bufferOf (some 9) [some 5, some 6] :=
  ⟨rfl, (axpy_zero_alpha_noop nanInt 2 1 1).1 (some 0) (bufferOf none [])
    (bufferOf (some 9) [some 5, some 6]) rfl⟩

/-- Distinct logical elements of a vector with a nonzero stride have distinct offsets. -/
theorem vecOffset_injective {len : Nat} {inc : Int} (hinc : inc ≠ 0) {i j : Nat}
    (hi : i < len) (hj : j < len) (h : vecOffset len inc i = vecOffset len inc j) :
    i = j := by
  have hpos : 0 < inc.natAbs := Int.natAbs_pos.mpr hinc
  unfold vecOffset at h
  split at h
  · exact Nat.eq_of_mul_eq_mul_right hpos h
  · have h' := Nat.eq_of_mul_eq_mul_right hpos h
    omega

/-- A loop that updates offset `off i` at step `i`, the offsets being distinct: afterwards
each `off i` holds the update of its old content and every other offset is untouched. -/
theorem foldl_update_range {α : Type} (off : Nat → Nat) (f : Nat → α → α) (y : Nat → α) :
    ∀ n : Nat, (∀ i j, i < n → j < n → off i = off j → i = j) →
      (∀ i, i < n →
        (List.range n).foldl (fun acc i => Function.update acc (off i) (f i (acc (off i)))) y
          (off i) = f i (y (off i))) ∧
      (∀ k, (∀ i, i < n → off i ≠ k) →
        (List.range n).foldl (fun acc i => Function.update acc (off i) (f i (acc (off i)))) y
          k = y k)
  | 0, _ => ⟨fun i hi => absurd hi (Nat.not_lt_zero i), fun _ _ => rfl⟩
  | n + 1, hinj => by
    have ih := foldl_update_range off f y n
      (fun i j hi hj => hinj i j (Nat.lt_succ_of_lt hi) (Nat.lt_succ_of_lt hj))
    rw [List.range_succ, List.foldl_append]
    simp only [List.foldl_cons, List.foldl_nil]
    constructor
    · intro i hi
      by_cases h : i = n
      · subst h
        rw [Function.update_same]
        congr 1
        apply ih.2
        intro j hj e
        have := hinj j i (Nat.lt_succ_of_lt hj) hi e
        omega
      · have hne : off i ≠ off n := fun e => h (hinj i n hi (Nat.lt_succ_self n) e)
        rw [Function.update_noteq hne]
        exact ih.1 i (by omega)
    · intro k hk
      rw [Function.update_noteq (hk n (Nat.lt_succ_self n)).symm]
      exact ih.2 k (fun i hi => hk i (Nat.lt_succ_of_lt hi))

/-- In exact arithmetic the accumulation loop is the sum. -/
theorem dotLoop_ofRing (R : Type) [CommRing R] [Nontrivial R] [DecidableEq R] (f g : Nat → R) :
    ∀ n : Nat, dotLoop (ScalarDomain.ofRing R) n f g
      = Finset.sum (Finset.range n) fun j => f j * g j
  | 0 => rfl
  | n + 1 => by
    have ih := dotLoop_ofRing R f g n
    unfold dotLoop at ih ⊢
    rw [List.range_succ, List.foldl_append, Finset.sum_range_succ, ← ih]
    rfl

/-- What `gemv` leaves at the offset of entry `i` of `y`, when it does not return early. -/
theorem gemv_entry {α : Type} (S : ScalarDomain α) (order : CBLAS_ORDER)
    (transA : CBLAS_TRANSPOSE) (m n : Int) (alpha : α) (A : Nat → α) (lda : Int)
    (x : Nat → α) (incx : Int) (beta : α) (y : Nat → α) (incy : Int)
    (hq : (S.isZero alpha && S.isOne beta) = false) (hinc : incy ≠ 0) (i : Nat)
    (hi : i < gemvLenY transA m n) :
    gemv S order transA m n alpha A lda x incx beta y incy
        (vecOffset (gemvLenY transA m n) incy i)
      = if S.isZero beta then gemvTerm S order transA m n alpha A lda x incx i
        else S.add (gemvTerm S order transA m n alpha A lda x incx i)
          (S.mul beta (y (vecOffset (gemvLenY transA m n) incy i))) := by
  unfold gemv
  rw [hq]
  simp only [Bool.false_eq_true, if_false]
  exact (foldl_update_range (vecOffset (gemvLenY transA m n) incy)
    (fun i old => if S.isZero beta then gemvTerm S order transA m n alpha A lda x incx i
      else S.add (gemvTerm S order transA m n alpha A lda x incx i) (S.mul beta old)) y
    (gemvLenY transA m n) (fun i j hi hj => vecOffset_injective hinc hi hj)).1 i hi

/-- C10: `gemv` with no-transpose computes `y ← α·A·x + β·y` over the layout-addressed
`m × n` matrix: in exact arithmetic, entry `i` of `y` ends as `α · Σ_j A(i,j)·x(j) + β·y(i)`
with `A(i,j)` read at the row-major or column-major offset; in every scalar domain, with
`β` exactly zero the entries of the result do not depend on the prior contents of `y`; and
for row-major `A = [[1,2],[3,4]]` (`lda = 2`), `x = [1,1]`, `incx = incy = 1`, `α = 1`,
`β = 0` the result is `y = [3,7]` for every initial `y`. -/
theorem gemv_notrans_spec :
    (∀ (R : Type) [CommRing R] [Nontrivial R] [DecidableEq R] (order : CBLAS_ORDER)
        (m n : Int) (alpha : R) (A : Nat → R) (lda : Int) (x : Nat → R) (incx : Int)
        (beta : R) (y : Nat → R) (incy : Int),
      incy ≠ 0 → ∀ i < m.toNat,
        gemv (ScalarDomain.ofRing R) order CBLAS_TRANSPOSE.CblasNoTrans m n alpha A lda x
            incx beta y incy (vecOffset m.toNat incy i)
          = alpha * (Finset.sum (Finset.range n.toNat) fun j =>
                A (matOffset order lda.toNat i j) * x (vecOffset n.toNat incx j))
              + beta * y (vecOffset m.toNat incy i)) ∧
    (∀ (α : Type) (S : ScalarDomain α) (order : CBLAS_ORDER) (m n : Int) (alpha : α)
        (A : Nat → α) (lda : Int) (x : Nat → α) (incx : Int) (beta : α) (y y' : Nat → α)
        (incy : Int),
      S.isZero beta = true → incy ≠ 0 → ∀ i < m.toNat,
        gemv S order CBLAS_TRANSPOSE.CblasNoTrans m n alpha A lda x incx beta y incy
            (vecOffset m.toNat incy i)
          = gemv S order CBLAS_TRANSPOSE.CblasNoTrans m n alpha A lda x incx beta y' incy
            (vecOffset m.toNat incy i)) ∧
    (∀ y : Nat → Int,
      gemv (ScalarDomain.ofRing Int) CBLAS_ORDER.CblasRowMajor CBLAS_TRANSPOSE.CblasNoTrans
          2 2 1 scenarioA 2 scenarioX 1 0 y 1 0 = 3 ∧
      gemv (ScalarDomain.ofRing Int) CBLAS_ORDER.CblasRowMajor CBLAS_TRANSPOSE.CblasNoTrans
          2 2 1 scenarioA 2 scenarioX 1 0 y 1 1 = 7) := by
  have hring : ∀ (R : Type) [CommRing R] [Nontrivial R] [DecidableEq R] (order : CBLAS_ORDER)
      (m n : Int) (alpha : R) (A : Nat → R) (lda : Int) (x : Nat → R) (incx : Int)
      (beta : R) (y : Nat → R) (incy : Int),
      incy ≠ 0 → ∀ i < m.toNat,
        gemv (ScalarDomain.ofRing R) order CBLAS_TRANSPOSE.CblasNoTrans m n alpha A lda x
            incx beta y incy (vecOffset m.toNat incy i)
          = alpha * (Finset.sum (Finset.range n.toNat) fun j =>
                A (matOffset order lda.toNat i j) * x (vecOffset n.toNat incx j))
              + beta * y (vecOffset m.toNat incy i) := by
    intro R _ _ _ order m n alpha A lda x incx beta y incy hinc i hi
    have hterm : gemvTerm (ScalarDomain.ofRing R) order CBLAS_TRANSPOSE.CblasNoTrans m n
        alpha A lda x incx i
        = alpha * (Finset.sum (Finset.range n.toNat) fun j =>
            A (matOffset order lda.toNat i j) * x (vecOffset n.toNat incx j)) := by
      unfold gemvTerm
      rw [dotLoop_ofRing]
      rfl
    by_cases hq : alpha = 0 ∧ beta = 1
    · obtain ⟨ha, hb⟩ := hq
      subst ha hb
      simp [gemv, ScalarDomain.ofRing]
    · have hq' : ((ScalarDomain.ofRing R).isZero alpha && (ScalarDomain.ofRing R).isOne beta)
          = false := by
        simp only [ScalarDomain.ofRing, Bool.and_eq_false_imp, decide_eq_true_eq,
          decide_eq_false_iff_not]
        exact fun ha hb => hq ⟨ha, hb⟩
      have h := gemv_entry (ScalarDomain.ofRing R) order CBLAS_TRANSPOSE.CblasNoTrans m n
        alpha A lda x incx beta y incy hq' hinc i hi
      have hlen : gemvLenY CBLAS_TRANSPOSE.CblasNoTrans m n = m.toNat := rfl
      rw [hlen] at h
      rw [h, hterm]
      by_cases hb : beta = 0
      · subst hb
        simp [ScalarDomain.ofRing]
      · have hz : (ScalarDomain.ofRing R).isZero beta = false := by
          simp [ScalarDomain.ofRing, hb]
        rw [hz]
        rfl
  refine ⟨hring, ?_, ?_⟩
  · intro α S order m n alpha A lda x incx beta y y' incy hb hinc i hi
    have hq : (S.isZero alpha && S.isOne beta) = false := by
      rw [S.zero_not_one beta hb, Bool.and_false]
    have hlen : gemvLenY CBLAS_TRANSPOSE.CblasNoTrans m n = m.toNat := rfl
    have h1 := gemv_entry S order CBLAS_TRANSPOSE.CblasNoTrans m n alpha A lda x incx beta
      y incy hq hinc i hi
    have h2 := gemv_entry S order CBLAS_TRANSPOSE.CblasNoTrans m n alpha A lda x incx beta
      y' incy hq hinc i hi
    rw [hlen] at h1 h2
    rw [h1, h2, hb]
    rfl
  · intro y
    have h0 := hring Int CBLAS_ORDER.CblasRowMajor 2 2 1 scenarioA 2 scenarioX 1 0 y 1
      (by decide) 0 (by decide)
    have h1 := hring Int CBLAS_ORDER.CblasRowMajor 2 2 1 scenarioA 2 scenarioX 1 0 y 1
      (by decide) 1 (by decide)
    constructor
    · simpa [vecOffset, matOffset, scenarioA, scenarioX, bufferOf, Finset.sum_range_succ]
        using h0
    · simpa [vecOffset, matOffset, scenarioA, scenarioX, bufferOf, Finset.sum_range_succ]
        using h1

/-- C10 at the scenario with an initial `y = [100, -5]`, and the formula at a
column-major call with `β = 2` and reversed `y`. -/
theorem gemv_notrans_spec_witness :
    (gemv (ScalarDomain.ofRing Int) CBLAS_ORDER.CblasRowMajor CBLAS_TRANSPOSE.CblasNoTrans
        2 2 1 scenarioA 2 scenarioX 1 0 (bufferOf 0 [100, -5]) 1 0 = 3 ∧
      gemv (ScalarDomain.ofRing Int) CBLAS_ORDER.CblasRowMajor CBLAS_TRANSPOSE.CblasNoTrans
        2 2 1 scenarioA 2 scenarioX 1 0 (bufferOf 0 [100, -5]) 1 1 = 7) ∧
    ((-1 : Int) ≠ 0 ∧ 0 < (2 : Int).toNat ∧
      gemv (ScalarDomain.ofRing Int) CBLAS_ORDER.CblasColMajor CBLAS_TRANSPOSE.CblasNoTrans
          2 2 1 scenarioA 2 scenarioX 1 2 (bufferOf 9 [5, 6]) (-1)
          (vecOffset (2 : Int).toNat (-1) 0)
        = 1 * (Finset.sum (Finset.range (2 : Int).toNat) fun j =>
              scenarioA (matOffset CBLAS_ORDER.CblasColMajor (2 : Int).toNat 0 j)
                * scenarioX (vecOffset (2 : Int).toNat 1 j))
            + 2 * bufferOf 9 [5, 6] (vecOffset (2 : Int).toNat (-1) 0)) :=
  ⟨gemv_notrans_spec.2.2 (bufferOf 0 [100, -5]),
    by decide, by decide,
    gemv_notrans_spec.1 Int CBLAS_ORDER.CblasColMajor 2 2 1 scenarioA 2 scenarioX 1 2
      (bufferOf 9 [5, 6]) (-1) (by decide) 0 (by decide)⟩

/-! ## Integer codes of the tags -/

/-- Decoding `CBLAS_ORDER` succeeds exactly on the enumerator's value. -/
theorem order_ofInt_eq_some (v : Int) (t : CBLAS_ORDER) :
    CBLAS_ORDER.ofInt v = some t ↔ t.toInt = v := by
  unfold CBLAS_ORDER.ofInt
  cases t <;> simp only [CBLAS_ORDER.toInt] <;> split_ifs <;> simp_all <;> omega

/-- Decoding `CBLAS_TRANSPOSE` succeeds exactly on the enumerator's value. -/
theorem transpose_ofInt_eq_some (v : Int) (t : CBLAS_TRANSPOSE) :
    CBLAS_TRANSPOSE.ofInt v = some t ↔ t.toInt = v := by
  unfold CBLAS_TRANSPOSE.ofInt
  cases t <;> simp only [CBLAS_TRANSPOSE.toInt] <;> split_ifs <;> simp_all <;> omega

/-- Decoding `CBLAS_UPLO` succeeds exactly on the enumerator's value. -/
theorem uplo_ofInt_eq_some (v : Int) (t : CBLAS_UPLO) :
    CBLAS_UPLO.ofInt v = some t ↔ t.toInt = v := by
  unfold CBLAS_UPLO.ofInt
  cases t <;> simp only [CBLAS_UPLO.toInt] <;> split_ifs <;> simp_all <;> omega

/-- Decoding `CBLAS_DIAG` succeeds exactly on the enumerator's value. -/
theorem diag_ofInt_eq_some (v : Int) (t : CBLAS_DIAG) :
    CBLAS_DIAG.ofInt v = some t ↔ t.toInt = v := by
  unfold CBLAS_DIAG.ofInt
  cases t <;> simp only [CBLAS_DIAG.toInt] <;> split_ifs <;> simp_all <;> omega

/-- Decoding `CBLAS_SIDE` succeeds exactly on the enumerator's value. -/
theorem side_ofInt_eq_some (v : Int) (t : CBLAS_SIDE) :
    CBLAS_SIDE.ofInt v = some t ↔ t.toInt = v := by
  unfold CBLAS_SIDE.ofInt
  cases t <;> simp only [CBLAS_SIDE.toInt] <;> split_ifs <;> simp_all <;> omega

/-- C13: the integer codes of the twelve tag constants are 101-102, 111-114, 121-122,
131-132, 141-142, pairwise distinct across the five enum types; no integer is a legal
value of two different tag types, so the code of a tag is never legal in the position of
another tag type; and decoding is injective: two integers that decode to the same tag of
a type are equal (and each type's codes are distinct). -/
theorem tag_codes_pairwise_distinct :
    allTagCodes = [101, 102, 111, 112, 113, 114, 121, 122, 131, 132, 141, 142] ∧
    allTagCodes.Nodup ∧
    (∀ T T' : CType, T ≠ T' → ∀ v ∈ T.legalCodes, v ∉ T'.legalCodes) ∧
    (Function.Injective CBLAS_ORDER.toInt ∧ Function.Injective CBLAS_TRANSPOSE.toInt ∧
      Function.Injective CBLAS_UPLO.toInt ∧ Function.Injective CBLAS_DIAG.toInt ∧
      Function.Injective CBLAS_SIDE.toInt) ∧
    ((∀ (v w : Int) (t : CBLAS_ORDER),
        CBLAS_ORDER.ofInt v = some t → CBLAS_ORDER.ofInt w = some t → v = w) ∧
      (∀ (v w : Int) (t : CBLAS_TRANSPOSE),
        CBLAS_TRANSPOSE.ofInt v = some t → CBLAS_TRANSPOSE.ofInt w = some t → v = w) ∧
      (∀ (v w : Int) (t : CBLAS_UPLO),
        CBLAS_UPLO.ofInt v = some t → CBLAS_UPLO.ofInt w = some t → v = w) ∧
      (∀ (v w : Int) (t : CBLAS_DIAG),
        CBLAS_DIAG.ofInt v = some t → CBLAS_DIAG.ofInt w = some t → v = w) ∧
      (∀ (v w : Int) (t : CBLAS_SIDE),
        CBLAS_SIDE.ofInt v = some t → CBLAS_SIDE.ofInt w = some t → v = w)) ∧
    ((∀ t : CBLAS_ORDER, CBLAS_ORDER.ofInt t.toInt = some t) ∧
      (∀ t : CBLAS_TRANSPOSE, CBLAS_TRANSPOSE.ofInt t.toInt = some t) ∧
      (∀ t : CBLAS_UPLO, CBLAS_UPLO.ofInt t.toInt = some t) ∧
      (∀ t : CBLAS_DIAG, CBLAS_DIAG.ofInt t.toInt = some t) ∧
      (∀ t : CBLAS_SIDE, CBLAS_SIDE.ofInt t.toInt = some t)) := by
  refine ⟨by decide, by decide, ?_, ⟨?_, ?_, ?_, ?_, ?_⟩, ⟨?_, ?_, ?_, ?_, ?_⟩,
    ⟨?_, ?_, ?_, ?_, ?_⟩⟩
  · intro T T' hne
    cases T <;> cases T' <;> first | exact absurd rfl hne | decide
  · intro a b h
    cases a <;> cases b <;> first | rfl | exact absurd h (by decide)
  · intro a b h
    cases a <;> cases b <;> first | rfl | exact absurd h (by decide)
  · intro a b h
    cases a <;> cases b <;> first | rfl | exact absurd h (by decide)
  · intro a b h
    cases a <;> cases b <;> first | rfl | exact absurd h (by decide)
  · intro a b h
    cases a <;> cases b <;> first | rfl | exact absurd h (by decide)
  · intro v w t hv hw
    rw [order_ofInt_eq_some] at hv hw
    rw [← hv, ← hw]
  · intro v w t hv hw
    rw [transpose_ofInt_eq_some] at hv hw
    rw [← hv, ← hw]
  · intro v w t hv hw
    rw [uplo_ofInt_eq_some] at hv hw
    rw [← hv, ← hw]
  · intro v w t hv hw
    rw [diag_ofInt_eq_some] at hv hw
    rw [← hv, ← hw]
  · intro v w t hv hw
    rw [side_ofInt_eq_some] at hv hw
    rw [← hv, ← hw]
  · intro t
    exact (order_ofInt_eq_some _ t).2 rfl
  · intro t
    exact (transpose_ofInt_eq_some _ t).2 rfl
  · intro t
    exact (uplo_ofInt_eq_some _ t).2 rfl
  · intro t
    exact (diag_ofInt_eq_some _ t).2 rfl
  · intro t
    exact (side_ofInt_eq_some _ t).2 rfl

/-- C13 at the code 121 of `CblasUpper`: it decodes as a `CBLAS_UPLO`, and it is not a
legal `CBLAS_ORDER`, `CBLAS_TRANSPOSE`, `CBLAS_DIAG` or `CBLAS_SIDE`. -/
theorem tag_codes_pairwise_distinct_witness :
    CType.uplo ≠ CType.order ∧ (121 : Int) ∈ CType.uplo.legalCodes ∧
    (121 : Int) ∉ CType.order.legalCodes ∧
    (CBLAS_UPLO.ofInt 121 = some CBLAS_UPLO.CblasUpper ∧
      CBLAS_UPLO.ofInt (CBLAS_UPLO.CblasUpper.toInt) = some CBLAS_UPLO.CblasUpper ∧
      (121 : Int) = CBLAS_UPLO.CblasUpper.toInt) :=
  ⟨by decide, by decide,
    tag_codes_pairwise_distinct.2.2.1 CType.uplo CType.order (by decide) 121 (by decide),
    by decide, by decide,
    tag_codes_pairwise_distinct.2.2.2.2.1.2.2.1 121 CBLAS_UPLO.CblasUpper.toInt
      CBLAS_UPLO.CblasUpper (by decide) (by decide)⟩

/-! ## Magnitude reductions -/

/-- The bound on the halvings in `floorLog2` is never reached: `floorLog2 n n` is
`Nat.log2 n`. -/
theorem floorLog2_eq_log2 : ∀ (k n : Nat), n ≤ k → floorLog2 k n = Nat.log2 n
  | 0, n, h => by
    have hn : n = 0 := Nat.le_zero.mp h
    subst hn
    rw [Nat.log2]
    rfl
  | k + 1, n, h => by
    rw [floorLog2, Nat.log2]
    by_cases h2 : n < 2
    · rw [if_pos h2, if_neg (by omega)]
    · rw [if_neg h2, if_pos (by omega), floorLog2_eq_log2 k (n / 2) (by omega)]

/-- The band condition, as inequalities. -/
theorem inBand_iff (rows : Nat) (kl ku : Int) (i j : Nat) :
    inBand rows kl ku i j = true ↔
      (j : Int) - ku ≤ (i : Int) ∧ (i : Int) ≤ (rows : Int) - 1 ∧ (i : Int) ≤ (j : Int) + kl := by
  simp only [inBand, Bool.and_eq_true, decide_eq_true_eq, max_le_iff, le_min_iff]
  constructor
  · rintro ⟨⟨_, h1⟩, h2, h3⟩
    exact ⟨h1, h2, h3⟩
  · rintro ⟨h1, h2, h3⟩
    exact ⟨⟨Int.ofNat_nonneg i, h1⟩, h2, h3⟩

/-- An offset `r + a * L` with `r < L` determines `r` and `a`. -/
theorem slice_decompose {L r a r' a' : Nat} (hr : r < L) (hr' : r' < L)
    (h : r + a * L = r' + a' * L) : r = r' ∧ a = a' := by
  have hL : 0 < L := Nat.lt_of_le_of_lt (Nat.zero_le r) hr
  have hm := congrArg (fun t => t % L) h
  have hd := congrArg (fun t => t / L) h
  simp only [Nat.add_mul_mod_self_right, Nat.mod_eq_of_lt hr, Nat.mod_eq_of_lt hr'] at hm
  simp only [Nat.add_mul_div_right _ _ hL, Nat.div_eq_of_lt hr, Nat.div_eq_of_lt hr',
    Nat.zero_add] at hd
  exact ⟨hm, hd⟩

/-- The compact-buffer row of an in-band element lies in `[0, kl + ku]`. -/
theorem bandRow_range (rows : Nat) (kl ku : Int) (i j : Nat)
    (h : inBand rows kl ku i j = true) :
    0 ≤ bandRow ku i j ∧ bandRow ku i j ≤ kl + ku := by
  rw [inBand_iff] at h
  unfold bandRow
  omega

/-- The row-major counterpart: the compact-buffer column of an in-band element. -/
theorem bandRow_range_swapped (rows : Nat) (kl ku : Int) (i j : Nat)
    (h : inBand rows kl ku i j = true) :
    0 ≤ bandRow kl j i ∧ bandRow kl j i ≤ kl + ku := by
  rw [inBand_iff] at h
  unfold bandRow
  omega

/-- With `lda ≥ kl + ku + 1`, distinct in-band elements have distinct offsets, in either
layout. -/
theorem bandOffset_injective (order : CBLAS_ORDER) (rows : Nat) (kl ku : Int) (lda : Nat)
    (hlda : kl + ku + 1 ≤ (lda : Int)) (i j i' j' : Nat)
    (h : inBand rows kl ku i j = true) (h' : inBand rows kl ku i' j' = true)
    (e : bandOffset order kl ku lda i j = bandOffset order kl ku lda i' j') :
    i = i' ∧ j = j' := by
  cases order with
  | CblasColMajor =>
    have b := bandRow_range rows kl ku i j h
    have b' := bandRow_range rows kl ku i' j' h'
    have hr : (bandRow ku i j).toNat < lda := by omega
    have hr' : (bandRow ku i' j').toNat < lda := by omega
    obtain ⟨e1, e2⟩ := slice_decompose hr hr' e
    subst e2
    refine ⟨?_, rfl⟩
    unfold bandRow at e1 b b'
    omega
  | CblasRowMajor =>
    have b := bandRow_range_swapped rows kl ku i j h
    have b' := bandRow_range_swapped rows kl ku i' j' h'
    have hr : (bandRow kl j i).toNat < lda := by omega
    have hr' : (bandRow kl j' i').toNat < lda := by omega
    obtain ⟨e1, e2⟩ := slice_decompose hr hr' e
    subst e2
    refine ⟨rfl, ?_⟩
    unfold bandRow at e1 b b'
    omega

/-- The `gbmv` kernel reads `A` only at the offsets of in-band elements: two buffers that
agree there give the same term. -/
theorem gbmvTerm_congr {α : Type} (S : ScalarDomain α) (order : CBLAS_ORDER)
    (transA : CBLAS_TRANSPOSE) (m n kl ku : Int) (alpha : α) (A A' : Nat → α) (lda : Int)
    (x : Nat → α) (incx : Int)
    (hA : ∀ i j, j < n.toNat → inBand m.toNat kl ku i j = true →
      A (bandOffset order kl ku lda.toNat i j) = A' (bandOffset order kl ku lda.toNat i j))
    (r : Nat) (hr : r < gemvLenY transA m n) :
    gbmvTerm S order transA m n kl ku alpha A lda x incx r
      = gbmvTerm S order transA m n kl ku alpha A' lda x incx r := by
  unfold gbmvTerm
  congr 1
  apply List.foldl_ext
  intro acc c hc
  have hc' : c < gemvLenX transA m n := List.mem_range.mp hc
  by_cases hb : inBand m.toNat kl ku (opIndex transA r c).1 (opIndex transA r c).2 = true
  · have hj : (opIndex transA r c).2 < n.toNat := by
      unfold opIndex gemvLenX gemvLenY at *
      cases hk : transA.keepsShape <;> simp_all
    rw [if_pos hb, if_pos hb, hA _ _ hj hb]
  · rw [if_neg hb, if_neg hb]

/-- C12: for an `m × n` band matrix with `kl` sub- and `ku` super-diagonals and an element
`(i, j)` with `max(0, j-ku) ≤ i ≤ min(m-1, j+kl)`, the compact-buffer row `ku + i - j` lies
in `[0, kl+ku]`; with `lda ≥ kl+ku+1` the offset of `(i, j)` lies in column `j`'s slice
`[j·lda, (j+1)·lda)` of the band buffer, and distinct in-band elements have distinct
offsets; and the `gbmv` kernel, in every scalar domain, layout and transpose mode, reads
the matrix only at the offsets of in-band elements: its result is the same for any two
buffers that agree there. -/
theorem band_addressing :
    (∀ (m : Nat) (kl ku : Int) (i j : Nat), inBand m kl ku i j = true →
      0 ≤ bandRow ku i j ∧ bandRow ku i j ≤ kl + ku) ∧
    (∀ (m : Nat) (kl ku : Int) (lda i j : Nat), kl + ku + 1 ≤ (lda : Int) →
      inBand m kl ku i j = true →
        j * lda ≤ bandOffset CBLAS_ORDER.CblasColMajor kl ku lda i j ∧
        bandOffset CBLAS_ORDER.CblasColMajor kl ku lda i j < (j + 1) * lda) ∧
    (∀ (order : CBLAS_ORDER) (m : Nat) (kl ku : Int) (lda i j i' j' : Nat),
      kl + ku + 1 ≤ (lda : Int) → inBand m kl ku i j = true → inBand m kl ku i' j' = true →
        bandOffset order kl ku lda i j = bandOffset order kl ku lda i' j' →
          i = i' ∧ j = j') ∧
    (∀ (α : Type) (S : ScalarDomain α) (order : CBLAS_ORDER) (transA : CBLAS_TRANSPOSE)
        (m n kl ku : Int) (alpha : α) (A A' : Nat → α) (lda : Int) (x : Nat → α)
        (incx : Int) (beta : α) (y : Nat → α) (incy : Int),
      (∀ i j, j < n.toNat → inBand m.toNat kl ku i j = true →
        A (bandOffset order kl ku lda.toNat i j)
          = A' (bandOffset order kl ku lda.toNat i j)) →
      gbmv S order transA m n kl ku alpha A lda x incx beta y incy
        = gbmv S order transA m n kl ku alpha A' lda x incx beta y incy) := by
  refine ⟨bandRow_range, ?_, ?_, ?_⟩
  · intro m kl ku lda i j hlda h
    have b := bandRow_range m kl ku i j h
    unfold bandOffset
    simp only
    rw [Nat.add_mul, Nat.one_mul]
    omega
  · intro order m kl ku lda i j i' j' hlda h h' e
    exact bandOffset_injective order m kl ku lda hlda i j i' j' h h' e
  · intro α S order transA m n kl ku alpha A A' lda x incx beta y incy hA
    unfold gbmv
    split
    · rfl
    · apply List.foldl_ext
      intro acc r hr
      rw [gbmvTerm_congr S order transA m n kl ku alpha A A' lda x incx hA r
        (List.mem_range.mp hr)]

/-- C12 on the tridiagonal 3×3 scenario (`kl = ku = 1`, `lda = 3`): element `(2, 1)` is in
the band, sits in row 2 of column 1 at offset 5, and the product with `x = [1,1,1]` does
not see the two unused corners of the buffer. -/
theorem band_addressing_witness :
    (inBand 3 1 1 2 1 = true ∧ (1 : Int) + 1 + 1 ≤ ((3 : Nat) : Int) ∧ bandRow 1 2 1 = 2 ∧
      bandOffset CBLAS_ORDER.CblasColMajor 1 1 3 2 1 = 5) ∧
    (0 ≤ bandRow 1 2 1 ∧ bandRow 1 2 1 ≤ 1 + 1) ∧
    (1 * 3 ≤ bandOffset CBLAS_ORDER.CblasColMajor 1 1 3 2 1 ∧
      bandOffset CBLAS_ORDER.CblasColMajor 1 1 3 2 1 < (1 + 1) * 3) ∧
    gbmv (ScalarDomain.ofRing Int) CBLAS_ORDER.CblasColMajor CBLAS_TRANSPOSE.CblasNoTrans
        3 3 1 1 1 (scenarioBand 0) 3 (bufferOf 0 [1, 1, 1]) 1 0 (bufferOf 0 []) 1
      = gbmv (ScalarDomain.ofRing Int) CBLAS_ORDER.CblasColMajor
          CBLAS_TRANSPOSE.CblasNoTrans 3 3 1 1 1 (scenarioBand 99) 3 (bufferOf 0 [1, 1, 1])
          1 0 (bufferOf 0 []) 1 :=
  ⟨⟨by decide, by decide, by decide, by decide⟩,
    band_addressing.1 3 1 1 2 1 (by decide),
    band_addressing.2.1 3 1 1 3 2 1 (by decide) (by decide),
    band_addressing.2.2.2 Int (ScalarDomain.ofRing Int) CBLAS_ORDER.CblasColMajor
      CBLAS_TRANSPOSE.CblasNoTrans 3 3 1 1 1 (scenarioBand 0) (scenarioBand 99) 3
      (bufferOf 0 [1, 1, 1]) 1 0 (bufferOf 0 []) 1
      (by
        intro i j hj hb
        have hb' := (inBand_iff _ _ _ _ _).1 hb
        have hj3 : j < 3 := hj
        have hi3 : i < 3 := by
          have : ((i : Int)) ≤ ((3 : Int).toNat : Int) - 1 := hb'.2.1
          have h3 : ((3 : Int).toNat : Int) = 3 := rfl
          omega
        interval_cases i <;> interval_cases j <;> rfl)⟩

end CBlas
